import Mathlib

/-!
# MJPEG streaming handler of the XIAO ESP32S3 camera firmware

A shallow embedding of `src/DVE/src/app_httpd.cpp`:

* `stream_handler` — the HTTP handler that acquires camera frames, converts
  them to JPEG when needed, writes them as a multipart chunked stream and
  releases the buffers (source lines 180–278);
* `calculate_weighted_sharpness` — the sampling loops of the sharpness
  helper (source lines 24–64).

The vendor SDK (camera driver, JPEG converter, HTTP server, timer) is not
part of the repository.  Each call into it is modelled by an outcome taken
from an environment script, and recorded as an `Event` in the trace of the
run, so that statements about "which calls happen, in which order, with which
arguments" become statements about lists.

Machine integers: `size_t` and `uint32_t` are 32 bits wide on the ESP32-S3;
values are natural numbers and every place where the C code can wrap or
narrow is written with an explicit `% 2 ^ 32`.
-/

namespace DVE

/-! ## Data model -/

/-- A byte sequence; a C buffer `(pointer, length)` is a list of byte values
together with a separately stored length, as in the source. -/
abbrev Bytes := List Nat

/-- The SDK error code type `esp_err_t` (a C `int`). -/
abbrev esp_err_t := Int

/-- Modelled from the spec: the vendor header `esp_err.h` is not in the
repository; `ESP_OK` is the success code every SDK call is compared with
(value 0 in ESP-IDF). -/
def ESP_OK : esp_err_t := 0

/-- Modelled from the spec: the vendor header `esp_err.h` is not in the
repository; `ESP_FAIL` is the generic failure code the handler records for a
capture or conversion failure (value -1 in ESP-IDF), distinct from `ESP_OK`. -/
def ESP_FAIL : esp_err_t := -1

/-- Width in bits of `size_t` and `uint32_t` on the target. -/
def SIZE_BITS : Nat := 32

/-- Narrowing of an integer value to `uint32_t` / `size_t`. -/
def to_u32 (v : Int) : Nat := (v % (2 : Int) ^ SIZE_BITS).toNat

/-- Modelled from the spec: the pixel formats of the camera driver
(`sensor.h`, not in the repository); the handler only distinguishes
`PIXFORMAT_JPEG` from every other format. -/
inductive pixformat_t
  | PIXFORMAT_RGB565
  | PIXFORMAT_YUV422
  | PIXFORMAT_YUV420
  | PIXFORMAT_GRAYSCALE
  | PIXFORMAT_JPEG
  | PIXFORMAT_RGB888
  | PIXFORMAT_RAW
  | PIXFORMAT_RGB444
  | PIXFORMAT_RGB555
  deriving DecidableEq, Repr

/-- The camera frame buffer `camera_fb_t`: the fields the firmware reads.
`buf = none` is a null pointer. -/
structure camera_fb_t where
  buf : Option Bytes
  len : Nat
  width : Nat
  height : Nat
  format : pixformat_t
  deriving DecidableEq, Repr

/-! ## String constants (source lines 9–12) -/

def PART_BOUNDARY : String := "123456789000000000000987654321"

def _STREAM_CONTENT_TYPE : String :=
  "multipart/x-mixed-replace;boundary=" ++ PART_BOUNDARY

def _STREAM_BOUNDARY : String := "\r\n--" ++ PART_BOUNDARY ++ "\r\n"

/-- The bytes of a C string literal (without the terminating NUL). -/
def cstr (s : String) : Bytes := s.toList.map Char.toNat

/-- The C library `strlen` on a literal without embedded NUL. -/
def strlen (s : String) : Nat := s.toList.length

/-- The conversion `%u` applied to a `size_t` argument: the decimal digits
of the value as an unsigned 32-bit number. -/
def format_u (v : Nat) : List Char := Nat.toDigits 10 (v % 2 ^ SIZE_BITS)

/-- The text `_STREAM_PART` expands to for the argument `v`:
`"Content-Type: image/jpeg\r\nContent-Length: %u\r\n\r\n"`. -/
def _STREAM_PART (v : Nat) : List Char :=
  "Content-Type: image/jpeg\r\nContent-Length: ".toList ++ format_u v ++ "\r\n\r\n".toList

/-- The C library `snprintf(buf, size, ...)` on the fully formatted text:
at most `size - 1` characters are stored (followed by a NUL), and the
return value is the length the full text would have had. -/
def snprintf (size : Nat) (full : List Char) : Bytes × Nat :=
  ((full.take (size - 1)).map Char.toNat, full.length)

/-! ## Calls into the SDK -/

/-- The value printed by `%.1ffps`: the double-precision quotient
`1000.0 / d`.  For `d ≠ 0` it stands for the quotient `num / den`; for
`d = 0` IEEE 754 division yields infinity (no trap). -/
inductive FpsSample
  | quotient (num den : Nat)
  | inf
  deriving DecidableEq, Repr

/-- The floating-point division `num / (double) den` of source line 274. -/
def fdiv (num den : Nat) : FpsSample :=
  if den = 0 then FpsSample.inf else FpsSample.quotient num den

/-- One call made by the handler, with its arguments and its outcome. -/
inductive Event
  | httpd_resp_set_type (ctype : String) (ret : esp_err_t)
  | httpd_resp_set_hdr (field value : String) (ret : esp_err_t)
  | esp_camera_fb_get (ret : Option camera_fb_t)
  | frame2jpg (fb : camera_fb_t) (quality : Nat) (ret : Option (Bytes × Nat))
  | esp_camera_fb_return (fb : camera_fb_t)
  | httpd_resp_send_chunk (buf : Option Bytes) (len : Nat) (ret : esp_err_t)
  | free (buf : Bytes)
  | esp_timer_get_time (ret : Int)
  | Serial_println (msg : String)
  | Serial_printf_MJPG (bytes ms : Nat) (fps : FpsSample)
  deriving DecidableEq, Repr

/-- Outcomes of the three response-setup calls made before the loop. -/
structure HeaderEnv where
  set_type : esp_err_t
  set_hdr_origin : esp_err_t
  set_hdr_framerate : esp_err_t
  deriving DecidableEq, Repr

/-- Outcomes the SDK delivers during one pass through the loop body; a
field is consulted only if the corresponding call is made.

`frame2jpg` follows the contract of the vendor converter: on success it
stores a freshly allocated, non-null buffer and its length through the two
out-pointers (`some (out, out_len)`), on failure it leaves them untouched
(`none`). -/
structure IterEnv where
  fb_get : Option camera_fb_t
  frame2jpg : Option (Bytes × Nat)
  send_boundary : esp_err_t
  send_part : esp_err_t
  send_jpg : esp_err_t
  timer : Int
  deriving DecidableEq, Repr

/-! ## `stream_handler` (source lines 180–278) -/

/-- The local variables of `stream_handler` that live across statements,
and its function-static `last_frame`. -/
structure Locals where
  fb : Option camera_fb_t
  res : esp_err_t
  _jpg_buf_len : Nat
  _jpg_buf : Option Bytes
  last_frame : Int
  deriving DecidableEq, Repr

/-- Lines 225–242: acquire a frame and, unless it already is JPEG, convert
it and hand the raw frame back to the driver. -/
def acquire_stage (env : IterEnv) (v : Locals) : List Event × Locals :=
  match env.fb_get with
  | none =>
    ([Event.esp_camera_fb_get none, Event.Serial_println "Camera capture failed"],
      { v with fb := none, res := ESP_FAIL })
  | some fb =>
    if fb.format ≠ pixformat_t.PIXFORMAT_JPEG then
      match env.frame2jpg with
      | some (out, out_len) =>
        ([Event.esp_camera_fb_get (some fb),
          Event.frame2jpg fb 80 (some (out, out_len)),
          Event.esp_camera_fb_return fb],
          { v with fb := none, _jpg_buf := some out, _jpg_buf_len := out_len })
      | none =>
        ([Event.esp_camera_fb_get (some fb),
          Event.frame2jpg fb 80 none,
          Event.esp_camera_fb_return fb,
          Event.Serial_println "JPEG compression failed"],
          { v with fb := none, res := ESP_FAIL })
    else
      ([Event.esp_camera_fb_get (some fb)],
        { v with fb := some fb, _jpg_buf_len := fb.len, _jpg_buf := fb.buf })

/-- Lines 244–246: write the boundary marker. -/
def send_boundary_stage (env : IterEnv) (v : Locals) : List Event × Locals :=
  if v.res = ESP_OK then
    ([Event.httpd_resp_send_chunk (some (cstr _STREAM_BOUNDARY)) (strlen _STREAM_BOUNDARY)
        env.send_boundary],
      { v with res := env.send_boundary })
  else ([], v)

/-- Lines 247–250: format the part header into `part_buf` and write it. -/
def send_part_stage (env : IterEnv) (v : Locals) : List Event × Locals :=
  if v.res = ESP_OK then
    let part := snprintf 64 (_STREAM_PART v._jpg_buf_len)
    ([Event.httpd_resp_send_chunk (some part.1) part.2 env.send_part],
      { v with res := env.send_part })
  else ([], v)

/-- Lines 251–253: write the JPEG payload. -/
def send_jpg_stage (env : IterEnv) (v : Locals) : List Event × Locals :=
  if v.res = ESP_OK then
    ([Event.httpd_resp_send_chunk v._jpg_buf v._jpg_buf_len env.send_jpg],
      { v with res := env.send_jpg })
  else ([], v)

/-- Lines 255–262: release whichever buffer is still held. -/
def cleanup_stage (v : Locals) : List Event × Locals :=
  match v.fb with
  | some fb => ([Event.esp_camera_fb_return fb], { v with fb := none, _jpg_buf := none })
  | none =>
    match v._jpg_buf with
    | some b => ([Event.free b], { v with _jpg_buf := none })
    | none => ([], v)

/-- Lines 268–274: the frame-rate record. `frame_time /= 1000` is C integer
division (truncation towards zero); both printed integers are narrowed to
`uint32_t`. -/
def timing_stage (env : IterEnv) (v : Locals) : List Event × Locals :=
  let fr_end := env.timer
  let frame_time := fr_end - v.last_frame
  let frame_time := Int.tdiv frame_time 1000
  ([Event.esp_timer_get_time fr_end,
    Event.Serial_printf_MJPG (to_u32 v._jpg_buf_len) (to_u32 frame_time)
      (fdiv 1000 (to_u32 frame_time))],
    { v with last_frame := fr_end })

/-- Lines 225–262: one pass through the loop body up to the `break` test. -/
def iteration (env : IterEnv) (v : Locals) : List Event × Locals :=
  let s1 := acquire_stage env v
  let s2 := send_boundary_stage env s1.2
  let s3 := send_part_stage env s2.2
  let s4 := send_jpg_stage env s3.2
  let s5 := cleanup_stage s4.2
  (s1.1 ++ s2.1 ++ s3.1 ++ s4.1 ++ s5.1, s5.2)

/-- The `while(true)` loop of lines 224–275, run against a script of
per-iteration outcomes.  The result is `some res` when the loop was left by
`break` (the handler then returns `res`), and `none` when every scripted
iteration succeeded and the handler is back at the loop head. -/
def stream_loop : Locals → List IterEnv → List Event × Option esp_err_t
  | _, [] => ([], none)
  | v, env :: rest =>
    let it := iteration env v
    if it.2.res ≠ ESP_OK then (it.1, some it.2.res)
    else
      let tm := timing_stage env it.2
      let r := stream_loop tm.2 rest
      (it.1 ++ tm.1 ++ r.1, r.2)

/-- The handler `stream_handler`.  `last_frame` is the value of the
function-static variable on entry.  (The sensor tuning calls of lines
189–214 neither fail nor touch any variable of the handler and are left
out of the trace.) -/
def stream_handler (henv : HeaderEnv) (last_frame : Int) (envs : List IterEnv) :
    List Event × Option esp_err_t :=
  let res := henv.set_type
  if res ≠ ESP_OK then
    ([Event.httpd_resp_set_type _STREAM_CONTENT_TYPE henv.set_type], some res)
  else
    let r := stream_loop
      { fb := none, res := res, _jpg_buf_len := 0, _jpg_buf := none, last_frame := last_frame }
      envs
    ([Event.httpd_resp_set_type _STREAM_CONTENT_TYPE henv.set_type,
      Event.httpd_resp_set_hdr "Access-Control-Allow-Origin" "*" henv.set_hdr_origin,
      Event.httpd_resp_set_hdr "X-Framerate" "60" henv.set_hdr_framerate] ++ r.1, r.2)

/-- The variables at the loop head after the scripted iterations `envs` all
succeeded (each one followed by its frame-rate record). -/
def loop_head : Locals → List IterEnv → Locals
  | v, [] => v
  | v, env :: rest => loop_head (timing_stage env (iteration env v).2).2 rest

/-- The variables with which `stream_handler` enters its loop. -/
def entry_locals (last_frame : Int) : Locals :=
  { fb := none, res := ESP_OK, _jpg_buf_len := 0, _jpg_buf := none, last_frame := last_frame }

/-! ## `calculate_weighted_sharpness` (source lines 24–64) -/

/-- Addition of `size_t` values. -/
def size_add (a b : Nat) : Nat := (a + b) % 2 ^ SIZE_BITS

/-- Subtraction of `size_t` values (wraps below zero). -/
def size_sub (a b : Nat) : Nat := (a + (2 ^ SIZE_BITS - b % 2 ^ SIZE_BITS)) % 2 ^ SIZE_BITS

/-- Multiplication of `size_t` values. -/
def size_mul (a b : Nat) : Nat := (a * b) % 2 ^ SIZE_BITS

/-- The byte read `buf[idx]`, promoted to `int`.  A read outside the buffer
is undefined in C; the model yields 0 for it. -/
def read_u8 (buf : Bytes) (idx : Nat) : Int := ((buf.getD idx 0 % 256 : Nat) : Int)

/-- The two running sums of the sampling loops.  The C variables are
`float`; the model keeps their exact values (rounding is not modelled and has
no influence on the loop control). -/
structure SharpnessAcc where
  total_sharpness : ℚ
  total_weight : ℚ
  deriving DecidableEq

/-- Lines 45–59: the body of the inner loop at column `x` and row `y`. -/
def sharpness_sample (buf : Bytes) (width height x y : Nat) (acc : SharpnessAcc) :
    SharpnessAcc :=
  let idx := size_add (size_mul y width) x
  let laplacian : Nat :=
    Int.natAbs (4 * read_u8 buf idx
      - read_u8 buf (size_sub idx 1) - read_u8 buf (size_add idx 1)
      - read_u8 buf (size_sub idx width) - read_u8 buf (size_add idx width))
  let weight : ℚ :=
    if x < width / 3 ∨ x > size_mul width 2 / 3 ∨ y < height / 3 ∨ y > size_mul height 2 / 3
    then 1 / 2 else 1
  { total_sharpness := acc.total_sharpness + (laplacian : ℚ) * weight,
    total_weight := acc.total_weight + weight }

/-- The loop `for (size_t i = start; i < stop; i += step) acc = body(i, acc)`,
entered at `i` with `fuel` bounding the number of times the loop test is
evaluated.  The result is `none` when the bound is used up before the loop is
left, or when the body itself does not finish. -/
def for_loop {α : Type} (step stop : Nat) (body : Nat → α → Option α) :
    Nat → Nat → α → Option α
  | 0, _, _ => none
  | fuel + 1, i, acc =>
    if i < stop then
      (body i acc).bind (fun acc2 => for_loop step stop body fuel (size_add i step) acc2)
    else some acc

/-- The function `calculate_weighted_sharpness`; `fb = none` is a null
pointer.  `fuel` bounds the number of loop tests of each loop; the result is
`none` when the function has not returned within that bound. -/
def calculate_weighted_sharpness (fuel : Nat) (fb : Option camera_fb_t) : Option ℚ :=
  match fb with
  | none => some 0
  | some fb =>
    match fb.buf with
    | none => some 0
    | some buf =>
      if fb.len = 0 then some 0
      else
        let width := fb.width
        let height := fb.height
        let step_x := width / 20
        let step_y := height / 15
        let start_x := width / 4
        let end_x := size_mul width 3 / 4
        let start_y := height / 4
        let end_y := size_mul height 3 / 4
        let sums :=
          for_loop step_y end_y
            (fun y acc =>
              for_loop step_x end_x
                (fun x acc2 => some (sharpness_sample buf width height x y acc2))
                fuel start_x acc)
            fuel start_y { total_sharpness := 0, total_weight := 0 }
        sums.map (fun acc =>
          if acc.total_weight > 0 then acc.total_sharpness / acc.total_weight else 0)

/-- A 160 x 120 grayscale frame, one byte per pixel, uniformly grey. -/
def sample_gray_frame : camera_fb_t :=
  { buf := some (List.replicate 19200 128), len := 19200, width := 160, height := 120,
    format := pixformat_t.PIXFORMAT_GRAYSCALE }

/-! ## Buffer ownership, read off a trace -/

/-- The buffers the session owns at some point of a run: a camera frame
that has not been handed back, and a converter output that has not been
freed. -/
structure Held where
  frame : Option camera_fb_t
  jpg : Option Bytes
  deriving DecidableEq, Repr

/-- Nothing is owned. -/
def Held.empty : Held := { frame := none, jpg := none }

/-- Effect of one call on the owned buffers.  The result is `none` when the
call breaks the ownership discipline: a frame is requested while a buffer is
still owned, a buffer is released that is not owned (in particular a second
release of the same buffer), or a converter output would overwrite an owned
one. -/
def own_step (h : Held) : Event → Option Held
  | Event.esp_camera_fb_get none => if h = Held.empty then some h else none
  | Event.esp_camera_fb_get (some fb) =>
    if h = Held.empty then some { frame := some fb, jpg := none } else none
  | Event.frame2jpg _ _ (some out) =>
    if h.jpg = none then some { h with jpg := some out.1 } else none
  | Event.esp_camera_fb_return fb =>
    if h.frame = some fb then some { h with frame := none } else none
  | Event.free b => if h.jpg = some b then some { h with jpg := none } else none
  | _ => some h

/-- Replays a trace from the ownership state `h`. -/
def own_run : Held → List Event → Option Held
  | h, [] => some h
  | h, e :: es => (own_step h e).bind (fun h2 => own_run h2 es)

/-- Successful `esp_camera_fb_get` calls. -/
def Event.isAcquired : Event → Bool
  | Event.esp_camera_fb_get (some _) => true
  | _ => false

/-- Every `esp_camera_fb_get` call, successful or not. -/
def Event.isAcquireCall : Event → Bool
  | Event.esp_camera_fb_get _ => true
  | _ => false

/-- Calls of `esp_camera_fb_return`. -/
def Event.isFbReturn : Event → Bool
  | Event.esp_camera_fb_return _ => true
  | _ => false

/-- Every call of the converter `frame2jpg`. -/
def Event.isEncodeCall : Event → Bool
  | Event.frame2jpg _ _ _ => true
  | _ => false

/-- Successful `frame2jpg` calls. -/
def Event.isEncoded : Event → Bool
  | Event.frame2jpg _ _ (some _) => true
  | _ => false

/-- Calls of `free`. -/
def Event.isFree : Event → Bool
  | Event.free _ => true
  | _ => false

/-- Calls of `httpd_resp_send_chunk`. -/
def Event.isSend : Event → Bool
  | Event.httpd_resp_send_chunk _ _ _ => true
  | _ => false

/-! ## The three chunk writes, as events -/

/-- The write of the boundary marker (source line 245), with outcome `r`. -/
def boundary_write (r : esp_err_t) : Event :=
  Event.httpd_resp_send_chunk (some (cstr _STREAM_BOUNDARY)) (strlen _STREAM_BOUNDARY) r

/-- The write of the part header formatted for `len` payload bytes (source
lines 248–249), with outcome `r`. -/
def part_write (len : Nat) (r : esp_err_t) : Event :=
  Event.httpd_resp_send_chunk (some (snprintf 64 (_STREAM_PART len)).1)
    (snprintf 64 (_STREAM_PART len)).2 r

/-- The write of the payload `(buf, len)` (source line 252), with outcome `r`. -/
def jpg_write (buf : Option Bytes) (len : Nat) (r : esp_err_t) : Event :=
  Event.httpd_resp_send_chunk buf len r

/-- Whether a call reported success; calls without an error code count as
successful. -/
def Event.succeeded : Event → Bool
  | Event.httpd_resp_send_chunk _ _ r => decide (r = ESP_OK)
  | Event.httpd_resp_set_type _ r => decide (r = ESP_OK)
  | Event.httpd_resp_set_hdr _ _ r => decide (r = ESP_OK)
  | _ => true

/-- Of a planned sequence of calls, the ones that are attempted when the
sequence is abandoned at the first failure: everything up to and including
the first call that fails. -/
def until_first_failure : List Event → List Event
  | [] => []
  | e :: es => if e.succeeded then e :: until_first_failure es else [e]

/-- The error code left in `res` by the three guarded writes. -/
def writes_result (env : IterEnv) : esp_err_t :=
  if env.send_boundary ≠ ESP_OK then env.send_boundary
  else if env.send_part ≠ ESP_OK then env.send_part
  else env.send_jpg

/-- The payload `(_jpg_buf, _jpg_buf_len)` with which an iteration reaches
the chunk writes: the frame's own buffer for a JPEG frame, the converter's
output otherwise; `none` when capture or conversion fails. -/
def IterEnv.payload (env : IterEnv) : Option (Option Bytes × Nat) :=
  match env.fb_get with
  | none => none
  | some fb =>
    if fb.format ≠ pixformat_t.PIXFORMAT_JPEG then
      env.frame2jpg.map (fun o => (some o.1, o.2))
    else some (fb.buf, fb.len)

/-- The events of the response setup when `httpd_resp_set_type` succeeds. -/
def setup_events (henv : HeaderEnv) : List Event :=
  [Event.httpd_resp_set_type _STREAM_CONTENT_TYPE henv.set_type,
   Event.httpd_resp_set_hdr "Access-Control-Allow-Origin" "*" henv.set_hdr_origin,
   Event.httpd_resp_set_hdr "X-Framerate" "60" henv.set_hdr_framerate]

/-! ## The byte stream seen by the transport -/

/-- The bytes one call hands to the transport: for a chunk write, the first
`len` bytes at `buf`; nothing for any other call. -/
def chunk_bytes : Event → Bytes
  | Event.httpd_resp_send_chunk buf len _ => (buf.getD []).take len
  | _ => []

/-- The bytes passed to the transport over a whole trace, in order. -/
def transmitted : List Event → Bytes
  | [] => []
  | e :: es => chunk_bytes e ++ transmitted es

/-- An iteration that succeeds throughout and whose JPEG payload is `p`: a
frame is acquired, `p` is its own buffer (JPEG frame) or the converter's
output (any other format), the stored length is the length of `p`, and the
three chunk writes succeed. -/
def IterEnv.delivers (env : IterEnv) (p : Bytes) : Prop :=
  env.payload = some (some p, p.length) ∧ env.send_boundary = ESP_OK ∧
  env.send_part = ESP_OK ∧ env.send_jpg = ESP_OK

instance (env : IterEnv) (p : Bytes) : Decidable (env.delivers p) := by
  unfold IterEnv.delivers
  infer_instance

/-- The three chunks of one part of the multipart stream, as the wire format
prescribes them for the payload `p`: boundary marker, part header with the
decimal length of `p`, and `p` itself. -/
def part_chunks (p : Bytes) : List Event :=
  [Event.httpd_resp_send_chunk (some (cstr "\r\n--123456789000000000000987654321\r\n"))
     36 ESP_OK,
   Event.httpd_resp_send_chunk
     (some (cstr ("Content-Type: image/jpeg\r\nContent-Length: " ++ toString p.length
       ++ "\r\n\r\n")))
     (46 + (Nat.log 10 p.length + 1)) ESP_OK,
   Event.httpd_resp_send_chunk (some p) p.length ESP_OK]

/-- The bytes of one part of the multipart stream for the payload `p`. -/
def part_bytes (p : Bytes) : Bytes :=
  cstr "\r\n--123456789000000000000987654321\r\n"
    ++ cstr ("Content-Type: image/jpeg\r\nContent-Length: " ++ toString p.length
        ++ "\r\n\r\n")
    ++ p

/-! ## Sample inputs -/

/-- A four-byte frame delivered by the camera in JPEG format. -/
def sample_jpeg_frame : camera_fb_t :=
  { buf := some [255, 216, 255, 217], len := 4, width := 2, height := 2,
    format := pixformat_t.PIXFORMAT_JPEG }

/-- An eight-byte RGB565 frame (2 x 2 pixels). -/
def sample_raw_frame : camera_fb_t :=
  { buf := some [1, 2, 3, 4, 5, 6, 7, 8], len := 8, width := 2, height := 2,
    format := pixformat_t.PIXFORMAT_RGB565 }

/-- Response setup in which every call succeeds. -/
def sample_setup : HeaderEnv :=
  { set_type := ESP_OK, set_hdr_origin := ESP_OK, set_hdr_framerate := ESP_OK }

/-- An iteration that streams `sample_jpeg_frame` successfully. -/
def sample_ok_jpeg : IterEnv :=
  { fb_get := some sample_jpeg_frame, frame2jpg := none, send_boundary := ESP_OK,
    send_part := ESP_OK, send_jpg := ESP_OK, timer := 33000 }

/-- An iteration that converts `sample_raw_frame` and streams the result. -/
def sample_ok_raw : IterEnv :=
  { fb_get := some sample_raw_frame, frame2jpg := some ([255, 216, 9, 255, 217], 5),
    send_boundary := ESP_OK, send_part := ESP_OK, send_jpg := ESP_OK, timer := 66000 }

/-- An iteration in which the camera delivers no frame. -/
def sample_capture_failure : IterEnv :=
  { fb_get := none, frame2jpg := none, send_boundary := ESP_OK, send_part := ESP_OK,
    send_jpg := ESP_OK, timer := 99000 }

/-- An iteration in which the conversion of `sample_raw_frame` fails. -/
def sample_convert_failure : IterEnv :=
  { fb_get := some sample_raw_frame, frame2jpg := none, send_boundary := ESP_OK,
    send_part := ESP_OK, send_jpg := ESP_OK, timer := 99000 }

/-- An iteration whose part-header write fails with `ESP_ERR_HTTPD_RESP_SEND`
(`0xb006`). -/
def sample_part_failure : IterEnv :=
  { fb_get := some sample_raw_frame, frame2jpg := some ([255, 216, 9, 255, 217], 5),
    send_boundary := ESP_OK, send_part := 45062, send_jpg := ESP_OK, timer := 99000 }

/-- Five payloads of 100, 150, 120, 130 and 140 bytes. -/
def sample_payloads : List Bytes :=
  [List.replicate 100 1, List.replicate 150 2, List.replicate 120 3, List.replicate 130 4,
   List.replicate 140 5]

/-- A successful iteration whose payload `p` comes from the camera as a JPEG
frame. -/
def jpeg_iteration (p : Bytes) (timer : Int) : IterEnv :=
  { fb_get := some { buf := some p, len := p.length, width := 8, height := 8,
                     format := pixformat_t.PIXFORMAT_JPEG },
    frame2jpg := none, send_boundary := ESP_OK, send_part := ESP_OK, send_jpg := ESP_OK,
    timer := timer }

/-- A successful iteration whose payload `p` is the converter's output for
`sample_raw_frame`. -/
def converted_iteration (p : Bytes) (timer : Int) : IterEnv :=
  { fb_get := some sample_raw_frame, frame2jpg := some (p, p.length),
    send_boundary := ESP_OK, send_part := ESP_OK, send_jpg := ESP_OK, timer := timer }

/-- Five successful iterations delivering `sample_payloads`, alternating
between JPEG frames and converted frames. -/
def sample_stream : List IterEnv :=
  [jpeg_iteration (List.replicate 100 1) 33000,
   converted_iteration (List.replicate 150 2) 66000,
   jpeg_iteration (List.replicate 120 3) 99000,
   converted_iteration (List.replicate 130 4) 132000,
   jpeg_iteration (List.replicate 140 5) 165000]

/-- Response setup in which `httpd_resp_set_type` succeeds and the first
`httpd_resp_set_hdr` call fails with `ESP_ERR_HTTPD_RESP_HDR` (`0xb005`). -/
def sample_setup_hdr_failure : HeaderEnv :=
  { set_type := ESP_OK, set_hdr_origin := 45061, set_hdr_framerate := ESP_OK }

/-- An iteration that streams `sample_jpeg_frame` successfully and reads the
timer 400 microseconds after `sample_ok_jpeg` does. -/
def sample_fast_jpeg : IterEnv :=
  { fb_get := some sample_jpeg_frame, frame2jpg := none, send_boundary := ESP_OK,
    send_part := ESP_OK, send_jpg := ESP_OK, timer := 33400 }

/-- A frame-rate record that carries the result of a division by zero. -/
def Event.dividedByZero : Event → Bool
  | Event.Serial_printf_MJPG _ _ FpsSample.inf => true
  | _ => false

/-- The elapsed interval in milliseconds as the frame-rate record of the
iteration consuming `env` prints it, after the successful iterations `pre`:
`(uint32_t)((fr_end - last_frame) / 1000)`, where `last_frame` is the timer
reading of the previous iteration, or the value of the static variable on
entry for the first one. -/
def elapsed_ms (last_frame : Int) (pre : List IterEnv) (env : IterEnv) : Nat :=
  to_u32 (Int.tdiv (env.timer - (pre.getLast?.map IterEnv.timer).getD last_frame) 1000)

/-! ## Basic facts about the loop -/

theorem own_run_append (h : Held) (a b : List Event) :
    own_run h (a ++ b) = (own_run h a).bind (fun h2 => own_run h2 b) := by
  induction a generalizing h with
  | nil => simp [own_run]
  | cons e es ih =>
    simp only [List.cons_append, own_run]
    cases own_step h e with
    | none => simp
    | some h2 => simpa using ih h2

theorem ESP_FAIL_ne_OK : ESP_FAIL ≠ ESP_OK := by decide

/-- Ownership and call counts of one pass through the loop body that starts
with no converter buffer pending. -/
theorem iteration_balanced (env : IterEnv) (v : Locals) (hbuf : v._jpg_buf = none) :
    own_run Held.empty (iteration env v).1 = some Held.empty ∧
    (iteration env v).2._jpg_buf = none ∧
    (iteration env v).1.countP Event.isFbReturn = (iteration env v).1.countP Event.isAcquired ∧
    (iteration env v).1.countP Event.isFree = (iteration env v).1.countP Event.isEncoded := by
  unfold iteration acquire_stage
  rcases hfb : env.fb_get with _ | fb
  · simp [send_boundary_stage, send_part_stage, send_jpg_stage, cleanup_stage, ESP_FAIL_ne_OK,
      hbuf, own_run, own_step, Event.isFbReturn, Event.isAcquired, Event.isFree, Event.isEncoded]
  · by_cases hfmt : fb.format = pixformat_t.PIXFORMAT_JPEG
    · by_cases h1 : env.send_boundary = ESP_OK <;> by_cases h2 : env.send_part = ESP_OK <;>
        by_cases h3 : env.send_jpg = ESP_OK <;> by_cases h0 : v.res = ESP_OK <;>
        simp [send_boundary_stage, send_part_stage, send_jpg_stage, cleanup_stage, ESP_FAIL_ne_OK,
          hbuf, own_run, own_step, Event.isFbReturn, Event.isAcquired, Event.isFree,
          Event.isEncoded, hfmt, h1, h2, h3, h0, Held.empty]
    · rcases henc : env.frame2jpg with _ | ⟨out, out_len⟩
      · simp [send_boundary_stage, send_part_stage, send_jpg_stage, cleanup_stage,
          ESP_FAIL_ne_OK, hbuf, own_run, own_step, Event.isFbReturn, Event.isAcquired,
          Event.isFree, Event.isEncoded, hfmt, Held.empty]
      · by_cases h1 : env.send_boundary = ESP_OK <;> by_cases h2 : env.send_part = ESP_OK <;>
          by_cases h3 : env.send_jpg = ESP_OK <;> by_cases h0 : v.res = ESP_OK <;>
          simp [send_boundary_stage, send_part_stage, send_jpg_stage, cleanup_stage,
            ESP_FAIL_ne_OK, hbuf, own_run, own_step, Event.isFbReturn, Event.isAcquired,
            Event.isFree, Event.isEncoded, hfmt, h1, h2, h3, h0, Held.empty]

theorem timing_stage_neutral (env : IterEnv) (v : Locals) (h : Held) :
    own_run h (timing_stage env v).1 = some h ∧
    (timing_stage env v).2._jpg_buf = v._jpg_buf ∧
    (timing_stage env v).2.res = v.res ∧
    (timing_stage env v).1.countP Event.isFbReturn = 0 ∧
    (timing_stage env v).1.countP Event.isAcquired = 0 ∧
    (timing_stage env v).1.countP Event.isFree = 0 ∧
    (timing_stage env v).1.countP Event.isEncoded = 0 ∧
    (timing_stage env v).1.countP Event.isAcquireCall = 0 ∧
    (timing_stage env v).1.filter Event.isSend = [] := by
  simp [timing_stage, own_run, own_step, Event.isFbReturn, Event.isAcquired, Event.isFree,
    Event.isEncoded, Event.isAcquireCall, Event.isSend]

/-- Ownership and call counts of the loop, started with no converter buffer
pending. -/
theorem stream_loop_balanced (envs : List IterEnv) (v : Locals) (hbuf : v._jpg_buf = none) :
    own_run Held.empty (stream_loop v envs).1 = some Held.empty ∧
    (stream_loop v envs).1.countP Event.isFbReturn
      = (stream_loop v envs).1.countP Event.isAcquired ∧
    (stream_loop v envs).1.countP Event.isFree
      = (stream_loop v envs).1.countP Event.isEncoded := by
  induction envs generalizing v with
  | nil => simp [stream_loop, own_run]
  | cons env rest ih =>
    obtain ⟨ho, hb, hc1, hc2⟩ := iteration_balanced env v hbuf
    obtain ⟨tmo, tb, -, t1, t2, t3, t4, -, -⟩ := timing_stage_neutral env (iteration env v).2 Held.empty
    unfold stream_loop
    by_cases hres : (iteration env v).2.res = ESP_OK
    · obtain ⟨io, i1, i2⟩ := ih (timing_stage env (iteration env v).2).2 (by rw [tb, hb])
      simp only [hres, ne_eq, not_true_eq_false, ↓reduceIte, own_run_append, ho, tmo,
        Option.some_bind, io, List.countP_append, hc1, hc2, t1, t2, t3, t4, i1, i2, and_self]
    · simp only [ne_eq, hres, not_false_eq_true, ↓reduceIte, ho, hc1, hc2, and_self]

/-- **C1.** In every run of `stream_handler`, whatever the camera, the
converter and the transport answer, the buffers are released exactly once:
replaying the trace, every `esp_camera_fb_return` and every `free` releases a
buffer that is owned at that moment (so none is released twice), every
`esp_camera_fb_get` happens with nothing owned (each buffer is released before
the next acquire), and nothing is owned when the handler returns or is back at
the loop head (no leak).  Equivalently in numbers: the frame returns equal the
successful acquires and the frees equal the successful conversions. -/
theorem stream_handler_releases_exactly_once (henv : HeaderEnv) (last_frame : Int)
    (envs : List IterEnv) :
    own_run Held.empty (stream_handler henv last_frame envs).1 = some Held.empty ∧
    (stream_handler henv last_frame envs).1.countP Event.isFbReturn
      = (stream_handler henv last_frame envs).1.countP Event.isAcquired ∧
    (stream_handler henv last_frame envs).1.countP Event.isFree
      = (stream_handler henv last_frame envs).1.countP Event.isEncoded := by
  unfold stream_handler
  by_cases hset : henv.set_type = ESP_OK
  · obtain ⟨ho, h1, h2⟩ := stream_loop_balanced envs
      { fb := none, res := henv.set_type, _jpg_buf_len := 0, _jpg_buf := none,
        last_frame := last_frame } rfl
    simp only [hset, ne_eq, not_true_eq_false, ↓reduceIte]
    rw [hset] at ho h1 h2
    refine ⟨?_, ?_, ?_⟩
    · simpa [own_run, own_step] using ho
    · simpa [Event.isFbReturn, Event.isAcquired] using h1
    · simpa [Event.isFree, Event.isEncoded] using h2
  · simp [hset, own_run, own_step, Event.isFbReturn, Event.isAcquired, Event.isFree,
      Event.isEncoded]

/-! ## Splitting a run at an iteration -/

theorem stream_loop_cons (v : Locals) (env : IterEnv) (rest : List IterEnv) :
    stream_loop v (env :: rest)
      = if (iteration env v).2.res ≠ ESP_OK then ((iteration env v).1, some (iteration env v).2.res)
        else ((iteration env v).1 ++ (timing_stage env (iteration env v).2).1
                ++ (stream_loop (timing_stage env (iteration env v).2).2 rest).1,
              (stream_loop (timing_stage env (iteration env v).2).2 rest).2) := by
  rw [stream_loop]

theorem stream_loop_append (pre rest : List IterEnv) (v : Locals)
    (h : (stream_loop v pre).2 = none) :
    stream_loop v (pre ++ rest)
      = ((stream_loop v pre).1 ++ (stream_loop (loop_head v pre) rest).1,
         (stream_loop (loop_head v pre) rest).2) := by
  induction pre generalizing v with
  | nil => simp [stream_loop, loop_head]
  | cons env pre ih =>
    unfold stream_loop at h
    by_cases hres : (iteration env v).2.res = ESP_OK
    · simp only [hres, ne_eq, not_true_eq_false, ↓reduceIte] at h
      have := ih (timing_stage env (iteration env v).2).2 h
      rw [List.cons_append, stream_loop_cons, stream_loop_cons]
      simp only [hres, ne_eq, not_true_eq_false, ↓reduceIte, this, loop_head, List.append_assoc]
    · simp [hres] at h

theorem loop_head_inv (pre : List IterEnv) (v : Locals)
    (h : (stream_loop v pre).2 = none) (hres : v.res = ESP_OK) (hbuf : v._jpg_buf = none) :
    (loop_head v pre).res = ESP_OK ∧ (loop_head v pre)._jpg_buf = none := by
  induction pre generalizing v with
  | nil => exact ⟨hres, hbuf⟩
  | cons env pre ih =>
    unfold stream_loop at h
    by_cases hr : (iteration env v).2.res = ESP_OK
    · simp only [hr, ne_eq, not_true_eq_false, ↓reduceIte] at h
      obtain ⟨-, tb, tr, -⟩ := timing_stage_neutral env (iteration env v).2 Held.empty
      exact ih _ h (by rw [tr, hr]) (by rw [tb, (iteration_balanced env v hbuf).2.1])
    · simp [hr] at h

theorem iteration_acquire_calls (env : IterEnv) (v : Locals) :
    (iteration env v).1.countP Event.isAcquireCall = 1 := by
  have h1 : (acquire_stage env v).1.countP Event.isAcquireCall = 1 := by
    unfold acquire_stage
    rcases env.fb_get with _ | fb
    · simp [Event.isAcquireCall]
    · by_cases hfmt : fb.format = pixformat_t.PIXFORMAT_JPEG
      · simp [hfmt, Event.isAcquireCall]
      · rcases env.frame2jpg with _ | ⟨out, out_len⟩ <;> simp [hfmt, Event.isAcquireCall]
  have h2 : ∀ w, (send_boundary_stage env w).1.countP Event.isAcquireCall = 0 := by
    intro w; unfold send_boundary_stage; split_ifs <;> simp [Event.isAcquireCall]
  have h3 : ∀ w, (send_part_stage env w).1.countP Event.isAcquireCall = 0 := by
    intro w; unfold send_part_stage; split_ifs <;> simp [Event.isAcquireCall]
  have h4 : ∀ w, (send_jpg_stage env w).1.countP Event.isAcquireCall = 0 := by
    intro w; unfold send_jpg_stage; split_ifs <;> simp [Event.isAcquireCall]
  have h5 : ∀ w, (cleanup_stage w).1.countP Event.isAcquireCall = 0 := by
    intro w; unfold cleanup_stage
    rcases w.fb with _ | fb
    · rcases w._jpg_buf with _ | b <;> simp [Event.isAcquireCall]
    · simp [Event.isAcquireCall]
  simp only [iteration, List.countP_append, h1, h2, h3, h4, h5]

theorem stream_loop_acquire_calls (pre : List IterEnv) (v : Locals)
    (h : (stream_loop v pre).2 = none) :
    (stream_loop v pre).1.countP Event.isAcquireCall = pre.length := by
  induction pre generalizing v with
  | nil => simp [stream_loop]
  | cons env pre ih =>
    unfold stream_loop at h ⊢
    by_cases hr : (iteration env v).2.res = ESP_OK
    · simp only [hr, ne_eq, not_true_eq_false, ↓reduceIte] at h ⊢
      obtain ⟨-, -, -, -, -, -, -, tc, -⟩ := timing_stage_neutral env (iteration env v).2 Held.empty
      simp only [List.countP_append, iteration_acquire_calls, tc, ih _ h, List.length_cons]
      omega
    · simp [hr] at h

/-- A handler that is still in its loop passed the response setup. -/
theorem set_type_ok_of_running (henv : HeaderEnv) (last_frame : Int) (pre : List IterEnv)
    (h : (stream_handler henv last_frame pre).2 = none) : henv.set_type = ESP_OK := by
  by_contra hset
  simp [stream_handler, hset] at h

theorem stream_handler_eq_loop (henv : HeaderEnv) (last_frame : Int) (envs : List IterEnv)
    (hset : henv.set_type = ESP_OK) :
    stream_handler henv last_frame envs
      = (setup_events henv ++ (stream_loop (entry_locals last_frame) envs).1,
         (stream_loop (entry_locals last_frame) envs).2) := by
  simp [stream_handler, hset, setup_events, entry_locals]

/-- Splitting a run after the iterations `pre`, all of which succeeded: the
iteration that follows starts at the loop head with `res == ESP_OK` and no
converter buffer pending, and the trace of the longer run extends the trace
of the shorter one. -/
theorem stream_handler_split (henv : HeaderEnv) (last_frame : Int) (pre : List IterEnv)
    (h : (stream_handler henv last_frame pre).2 = none) :
    ∃ v : Locals, v.res = ESP_OK ∧ v._jpg_buf = none ∧ ∀ rest : List IterEnv,
      stream_handler henv last_frame (pre ++ rest)
        = ((stream_handler henv last_frame pre).1 ++ (stream_loop v rest).1,
           (stream_loop v rest).2) := by
  have hset := set_type_ok_of_running henv last_frame pre h
  rw [stream_handler_eq_loop _ _ _ hset] at h
  simp only at h
  obtain ⟨hr, hb⟩ := loop_head_inv pre (entry_locals last_frame) h rfl rfl
  refine ⟨loop_head (entry_locals last_frame) pre, hr, hb, fun rest => ?_⟩
  rw [stream_handler_eq_loop _ _ _ hset, stream_handler_eq_loop _ _ _ hset,
    stream_loop_append pre rest _ h]
  simp

theorem stream_handler_acquire_calls (henv : HeaderEnv) (last_frame : Int) (pre : List IterEnv)
    (h : (stream_handler henv last_frame pre).2 = none) :
    (stream_handler henv last_frame pre).1.countP Event.isAcquireCall = pre.length := by
  have hset := set_type_ok_of_running henv last_frame pre h
  rw [stream_handler_eq_loop _ _ _ hset] at h ⊢
  simp only at h
  simp [setup_events, Event.isAcquireCall, stream_loop_acquire_calls pre _ h]

/-! ## One pass through the loop body, case by case -/

theorem iteration_capture_failed (env : IterEnv) (v : Locals) (hbuf : v._jpg_buf = none)
    (hfb : env.fb_get = none) :
    (iteration env v).1
      = [Event.esp_camera_fb_get none, Event.Serial_println "Camera capture failed"] ∧
    (iteration env v).2.res = ESP_FAIL := by
  simp [iteration, acquire_stage, send_boundary_stage, send_part_stage, send_jpg_stage,
    cleanup_stage, hfb, hbuf, ESP_FAIL_ne_OK]

theorem iteration_convert_failed (env : IterEnv) (v : Locals) (fb : camera_fb_t)
    (hbuf : v._jpg_buf = none) (hfb : env.fb_get = some fb)
    (hfmt : fb.format ≠ pixformat_t.PIXFORMAT_JPEG) (henc : env.frame2jpg = none) :
    (iteration env v).1
      = [Event.esp_camera_fb_get (some fb), Event.frame2jpg fb 80 none,
         Event.esp_camera_fb_return fb, Event.Serial_println "JPEG compression failed"] ∧
    (iteration env v).2.res = ESP_FAIL := by
  simp [iteration, acquire_stage, send_boundary_stage, send_part_stage, send_jpg_stage,
    cleanup_stage, hfb, hbuf, hfmt, henc, ESP_FAIL_ne_OK]

theorem iteration_jpeg (env : IterEnv) (v : Locals) (fb : camera_fb_t)
    (hres : v.res = ESP_OK) (hfb : env.fb_get = some fb)
    (hfmt : fb.format = pixformat_t.PIXFORMAT_JPEG) :
    (iteration env v).1
      = [Event.esp_camera_fb_get (some fb)]
        ++ until_first_failure [boundary_write env.send_boundary,
             part_write fb.len env.send_part, jpg_write fb.buf fb.len env.send_jpg]
        ++ [Event.esp_camera_fb_return fb] ∧
    (iteration env v).2.res = writes_result env ∧
    (iteration env v).2._jpg_buf_len = fb.len := by
  by_cases h1 : env.send_boundary = ESP_OK <;> by_cases h2 : env.send_part = ESP_OK <;>
    by_cases h3 : env.send_jpg = ESP_OK <;>
    simp [iteration, acquire_stage, send_boundary_stage, send_part_stage, send_jpg_stage,
      cleanup_stage, hfb, hfmt, hres, h1, h2, h3, until_first_failure, Event.succeeded,
      boundary_write, part_write, jpg_write, writes_result]

theorem iteration_converted (env : IterEnv) (v : Locals) (fb : camera_fb_t) (out : Bytes)
    (out_len : Nat) (hres : v.res = ESP_OK) (hfb : env.fb_get = some fb)
    (hfmt : fb.format ≠ pixformat_t.PIXFORMAT_JPEG)
    (henc : env.frame2jpg = some (out, out_len)) :
    (iteration env v).1
      = [Event.esp_camera_fb_get (some fb), Event.frame2jpg fb 80 (some (out, out_len)),
         Event.esp_camera_fb_return fb]
        ++ until_first_failure [boundary_write env.send_boundary,
             part_write out_len env.send_part, jpg_write (some out) out_len env.send_jpg]
        ++ [Event.free out] ∧
    (iteration env v).2.res = writes_result env ∧
    (iteration env v).2._jpg_buf_len = out_len := by
  by_cases h1 : env.send_boundary = ESP_OK <;> by_cases h2 : env.send_part = ESP_OK <;>
    by_cases h3 : env.send_jpg = ESP_OK <;>
    simp [iteration, acquire_stage, send_boundary_stage, send_part_stage, send_jpg_stage,
      cleanup_stage, hfb, hfmt, henc, hres, h1, h2, h3, until_first_failure, Event.succeeded,
      boundary_write, part_write, jpg_write, writes_result]

/-- A pass that leaves a failure code in `res` ends the run: the handler
returns that code and consumes no later outcome. -/
theorem stream_loop_break (env : IterEnv) (post : List IterEnv) (v : Locals)
    (h : (iteration env v).2.res ≠ ESP_OK) :
    stream_loop v (env :: post) = ((iteration env v).1, some (iteration env v).2.res) := by
  rw [stream_loop_cons, if_pos h]

/-- A successful pass followed by nothing: the frame-rate record is emitted
and the handler is back at the loop head. -/
theorem stream_loop_single_ok (env : IterEnv) (v : Locals)
    (h : (iteration env v).2.res = ESP_OK) :
    stream_loop v [env]
      = ((iteration env v).1 ++ (timing_stage env (iteration env v).2).1, none) := by
  rw [stream_loop_cons]
  simp [h, stream_loop]

/-! ## Capture failure (C4) -/

/-- **C4.** If `esp_camera_fb_get` returns no frame on iteration `k`, the
iterations before it (`pre`, `k - 1` of them) having all succeeded, then
`stream_handler` returns `ESP_FAIL`; iteration `k` consists of the failed
acquire and the log line only, so it writes no chunk and performs no frame
return and no free; and the whole run makes exactly `k` acquire calls, none of
them after the failing one (the outcomes `post` scripted for later iterations
are never consumed).  The last equation says that the chunk writes, frame
returns and frees of the whole run are those of the first `k - 1` iterations. -/
theorem capture_failure_terminates (henv : HeaderEnv) (last_frame : Int)
    (pre post : List IterEnv) (env : IterEnv)
    (hrun : (stream_handler henv last_frame pre).2 = none) (hfb : env.fb_get = none) :
    stream_handler henv last_frame (pre ++ env :: post)
      = ((stream_handler henv last_frame pre).1
           ++ [Event.esp_camera_fb_get none, Event.Serial_println "Camera capture failed"],
         some ESP_FAIL) ∧
    (stream_handler henv last_frame (pre ++ env :: post)).1.countP Event.isAcquireCall
      = pre.length + 1 ∧
    (stream_handler henv last_frame (pre ++ env :: post)).1.filter
        (fun e => e.isSend || e.isFbReturn || e.isFree)
      = (stream_handler henv last_frame pre).1.filter
        (fun e => e.isSend || e.isFbReturn || e.isFree) := by
  obtain ⟨v, hres, hbuf, hsplit⟩ := stream_handler_split henv last_frame pre hrun
  obtain ⟨htr, hr⟩ := iteration_capture_failed env v hbuf hfb
  have hbreak := stream_loop_break env post v (by rw [hr]; exact ESP_FAIL_ne_OK)
  rw [htr, hr] at hbreak
  have heq : stream_handler henv last_frame (pre ++ env :: post)
      = ((stream_handler henv last_frame pre).1
           ++ [Event.esp_camera_fb_get none, Event.Serial_println "Camera capture failed"],
         some ESP_FAIL) := by
    rw [hsplit, hbreak]
  refine ⟨heq, ?_, ?_⟩
  · rw [heq]
    simp [List.countP_append, stream_handler_acquire_calls henv last_frame pre hrun,
      Event.isAcquireCall]
  · rw [heq]
    simp [List.filter_append, Event.isSend, Event.isFbReturn, Event.isFree]

/-- Instance of `capture_failure_terminates`: one successful iteration, then a
capture failure on iteration 2, with a third iteration scripted in vain. -/
theorem capture_failure_terminates_witness :
    (stream_handler sample_setup 0 [sample_ok_jpeg]).2 = none ∧
    sample_capture_failure.fb_get = none ∧
    (stream_handler sample_setup 0
      ([sample_ok_jpeg] ++ sample_capture_failure :: [sample_ok_raw])).2 = some ESP_FAIL ∧
    (stream_handler sample_setup 0
      ([sample_ok_jpeg] ++ sample_capture_failure :: [sample_ok_raw])).1.countP
        Event.isAcquireCall = [sample_ok_jpeg].length + 1 :=
  ⟨by decide, rfl,
    congrArg Prod.snd (capture_failure_terminates sample_setup 0 [sample_ok_jpeg]
      [sample_ok_raw] sample_capture_failure (by decide) rfl).1,
    (capture_failure_terminates sample_setup 0 [sample_ok_jpeg]
      [sample_ok_raw] sample_capture_failure (by decide) rfl).2.1⟩

/-! ## The iteration after a running prefix -/

/-- The iteration that consumes `env` after the successful iterations `pre`:
it starts at the loop head with `res == ESP_OK` and no converter buffer
pending; the trace grows by the events of that pass, followed by the
frame-rate record when the pass succeeded; and a failing pass ends the run,
whatever is scripted after it. -/
theorem stream_handler_next (henv : HeaderEnv) (last_frame : Int) (pre : List IterEnv)
    (env : IterEnv) (hrun : (stream_handler henv last_frame pre).2 = none) :
    ∃ v : Locals, v.res = ESP_OK ∧ v._jpg_buf = none ∧
      (stream_handler henv last_frame (pre ++ [env])).1
        = (stream_handler henv last_frame pre).1 ++ ((iteration env v).1
            ++ if (iteration env v).2.res = ESP_OK
               then (timing_stage env (iteration env v).2).1 else []) ∧
      ((iteration env v).2.res = ESP_OK →
        (stream_handler henv last_frame (pre ++ [env])).2 = none) ∧
      ∀ post : List IterEnv, (iteration env v).2.res ≠ ESP_OK →
        stream_handler henv last_frame (pre ++ env :: post)
          = ((stream_handler henv last_frame pre).1 ++ (iteration env v).1,
             some (iteration env v).2.res) := by
  obtain ⟨v, hres, hbuf, hsplit⟩ := stream_handler_split henv last_frame pre hrun
  refine ⟨v, hres, hbuf, ?_, ?_, ?_⟩
  · rw [hsplit]
    by_cases hr : (iteration env v).2.res = ESP_OK
    · simp [stream_loop_single_ok env v hr, hr]
    · simp [stream_loop_break env [] v hr, hr]
  · intro hr
    rw [hsplit, stream_loop_single_ok env v hr]
  · intro post hr
    rw [hsplit, stream_loop_break env post v hr]

theorem writes_filter_isSend (a b c : esp_err_t) (n : Nat) (buf : Option Bytes) :
    (until_first_failure [boundary_write a, part_write n b, jpg_write buf n c]).filter
      Event.isSend
      = until_first_failure [boundary_write a, part_write n b, jpg_write buf n c] := by
  by_cases h1 : a = ESP_OK <;> by_cases h2 : b = ESP_OK <;> by_cases h3 : c = ESP_OK <;>
    simp [until_first_failure, Event.succeeded, boundary_write, part_write, jpg_write,
      Event.isSend, h1, h2, h3]

theorem writes_countP_zero (a b c : esp_err_t) (n : Nat) (buf : Option Bytes)
    (p : Event → Bool) (hp : ∀ x y z, p (Event.httpd_resp_send_chunk x y z) = false) :
    (until_first_failure [boundary_write a, part_write n b, jpg_write buf n c]).countP p
      = 0 := by
  by_cases h1 : a = ESP_OK <;> by_cases h2 : b = ESP_OK <;> by_cases h3 : c = ESP_OK <;>
    simp [until_first_failure, Event.succeeded, boundary_write, part_write, jpg_write,
      hp, h1, h2, h3]

theorem writes_filter_nil (a b c : esp_err_t) (n : Nat) (buf : Option Bytes)
    (p : Event → Bool) (hp : ∀ x y z, p (Event.httpd_resp_send_chunk x y z) = false) :
    (until_first_failure [boundary_write a, part_write n b, jpg_write buf n c]).filter p
      = [] := by
  by_cases h1 : a = ESP_OK <;> by_cases h2 : b = ESP_OK <;> by_cases h3 : c = ESP_OK <;>
    simp [until_first_failure, Event.succeeded, boundary_write, part_write, jpg_write,
      hp, h1, h2, h3]

/-- The chunk writes of one pass, and the code it leaves in `res`. -/
theorem iteration_sends (env : IterEnv) (v : Locals) (hres : v.res = ESP_OK)
    (hbuf : v._jpg_buf = none) :
    (iteration env v).1.filter Event.isSend
      = (match env.payload with
         | none => []
         | some (buf, len) =>
           until_first_failure [boundary_write env.send_boundary,
             part_write len env.send_part, jpg_write buf len env.send_jpg]) ∧
    (iteration env v).2.res
      = (match env.payload with
         | none => ESP_FAIL
         | some _ => writes_result env) := by
  unfold IterEnv.payload
  rcases hfb : env.fb_get with _ | fb
  · obtain ⟨h1, h2⟩ := iteration_capture_failed env v hbuf hfb
    simp [h1, h2, Event.isSend]
  · by_cases hfmt : fb.format = pixformat_t.PIXFORMAT_JPEG
    · obtain ⟨h1, h2, -⟩ := iteration_jpeg env v fb hres hfb hfmt
      simp [h1, h2, hfmt, List.filter_append, writes_filter_isSend, Event.isSend]
    · rcases henc : env.frame2jpg with _ | ⟨out, out_len⟩
      · obtain ⟨h1, h2⟩ := iteration_convert_failed env v fb hbuf hfb hfmt henc
        simp [h1, h2, hfmt, Event.isSend]
      · obtain ⟨h1, h2, -⟩ := iteration_converted env v fb out out_len hres hfb hfmt henc
        simp [h1, h2, hfmt, List.filter_append, writes_filter_isSend, Event.isSend]

theorem iteration_head (env : IterEnv) (v : Locals) :
    ∃ rest, (iteration env v).1 = Event.esp_camera_fb_get env.fb_get :: rest := by
  unfold iteration acquire_stage
  rcases env.fb_get with _ | fb
  · exact ⟨_, rfl⟩
  · by_cases hfmt : fb.format = pixformat_t.PIXFORMAT_JPEG
    · simp [hfmt]
    · rcases env.frame2jpg with _ | ⟨out, out_len⟩ <;> simp [hfmt]

theorem iteration_returns_frame (env : IterEnv) (v : Locals) (hres : v.res = ESP_OK)
    (hbuf : v._jpg_buf = none) (fb : camera_fb_t) (hfb : env.fb_get = some fb) :
    (iteration env v).1.filter Event.isFbReturn = [Event.esp_camera_fb_return fb] := by
  by_cases hfmt : fb.format = pixformat_t.PIXFORMAT_JPEG
  · obtain ⟨h1, -, -⟩ := iteration_jpeg env v fb hres hfb hfmt
    rw [h1, List.filter_append, List.filter_append,
      writes_filter_nil _ _ _ _ _ _ (fun _ _ _ => rfl)]
    simp [Event.isFbReturn]
  · rcases henc : env.frame2jpg with _ | ⟨out, out_len⟩
    · obtain ⟨h1, -⟩ := iteration_convert_failed env v fb hbuf hfb hfmt henc
      simp [h1, Event.isFbReturn]
    · obtain ⟨h1, -, -⟩ := iteration_converted env v fb out out_len hres hfb hfmt henc
      rw [h1, List.filter_append, List.filter_append,
        writes_filter_nil _ _ _ _ _ _ (fun _ _ _ => rfl)]
      simp [Event.isFbReturn]

/-! ## Order of the chunk writes and failure of a write (C3) -/

/-- **C3.** In any iteration of `stream_handler` the chunk writes attempted
are, in this order, the boundary marker, the part header and the payload, cut
off after the first write that fails (and none at all when capture or
conversion failed).  In particular, when on iteration `k` (after the
successful iterations `pre`) the boundary write succeeds and the part-header
write fails with code `e`: the handler returns `e`; the writes of that
iteration are the boundary and the part header only, so the payload write is
not attempted; the frame acquired in that iteration is handed back once, and
nothing is owned any more at the end of the iteration (a converter output is
freed); and no further frame is acquired: the run makes `k` acquire calls,
whatever outcomes `post` are scripted for later iterations. -/
theorem chunk_writes_stop_at_first_failure :
    (∀ (henv : HeaderEnv) (last_frame : Int) (pre : List IterEnv) (env : IterEnv),
      (stream_handler henv last_frame pre).2 = none →
      ∃ tail : List Event,
        (stream_handler henv last_frame (pre ++ [env])).1
          = (stream_handler henv last_frame pre).1 ++ tail ∧
        tail.filter Event.isSend
          = (match env.payload with
             | none => []
             | some (buf, len) =>
               until_first_failure [boundary_write env.send_boundary,
                 part_write len env.send_part, jpg_write buf len env.send_jpg])) ∧
    (∀ (henv : HeaderEnv) (last_frame : Int) (pre post : List IterEnv) (env : IterEnv)
        (fb : camera_fb_t) (buf : Option Bytes) (len : Nat) (e : esp_err_t),
      (stream_handler henv last_frame pre).2 = none →
      env.fb_get = some fb → env.payload = some (buf, len) →
      env.send_boundary = ESP_OK → env.send_part = e → e ≠ ESP_OK →
      (stream_handler henv last_frame (pre ++ env :: post)).2 = some e ∧
      (stream_handler henv last_frame (pre ++ env :: post)).1.countP Event.isAcquireCall
        = pre.length + 1 ∧
      ∃ tail : List Event,
        (stream_handler henv last_frame (pre ++ env :: post)).1
          = (stream_handler henv last_frame pre).1 ++ tail ∧
        tail.filter Event.isSend = [boundary_write ESP_OK, part_write len e] ∧
        tail.filter Event.isFbReturn = [Event.esp_camera_fb_return fb] ∧
        own_run Held.empty tail = some Held.empty) := by
  constructor
  · intro henv last_frame pre env hrun
    obtain ⟨v, hres, hbuf, htr, -, -⟩ := stream_handler_next henv last_frame pre env hrun
    refine ⟨_, htr, ?_⟩
    obtain ⟨hs, -⟩ := iteration_sends env v hres hbuf
    obtain ⟨-, -, -, -, -, -, -, -, ht⟩ :=
      timing_stage_neutral env (iteration env v).2 Held.empty
    rw [List.filter_append, hs]
    split_ifs <;> simp [ht]
  · intro henv last_frame pre post env fb buf len e hrun hfb hpay hb hp he
    obtain ⟨v, hres, hbuf, -, -, hfail⟩ := stream_handler_next henv last_frame pre env hrun
    obtain ⟨hs, hr⟩ := iteration_sends env v hres hbuf
    rw [hpay] at hs hr
    have hp2 : env.send_part ≠ ESP_OK := by rw [hp]; exact he
    have hwr : writes_result env = e := by
      unfold writes_result
      rw [if_neg (by simp [hb]), if_pos hp2, hp]
    simp only [hwr] at hr
    have hfull := hfail post (by rw [hr]; exact he)
    rw [hr] at hfull
    refine ⟨by rw [hfull], ?_, _, by rw [hfull], ?_, ?_, ?_⟩
    · rw [hfull]
      simp [List.countP_append, stream_handler_acquire_calls henv last_frame pre hrun,
        iteration_acquire_calls]
    · rw [hs]
      simp [until_first_failure, Event.succeeded, boundary_write, part_write, hb, hp, he]
    · exact iteration_returns_frame env v hres hbuf fb hfb
    · exact (iteration_balanced env v hbuf).1

/-- Instance of `chunk_writes_stop_at_first_failure`: after one successful
iteration, the writes of a converted frame; and a part-header failure with
code `0xb006` on iteration 2. -/
theorem chunk_writes_stop_at_first_failure_witness :
    (stream_handler sample_setup 0 [sample_ok_jpeg]).2 = none ∧
    (∃ tail : List Event,
      (stream_handler sample_setup 0 ([sample_ok_jpeg] ++ [sample_ok_raw])).1
        = (stream_handler sample_setup 0 [sample_ok_jpeg]).1 ++ tail ∧
      tail.filter Event.isSend
        = [boundary_write ESP_OK, part_write 5 ESP_OK,
           jpg_write (some [255, 216, 9, 255, 217]) 5 ESP_OK]) ∧
    sample_part_failure.send_part ≠ ESP_OK ∧
    (stream_handler sample_setup 0
      ([sample_ok_jpeg] ++ sample_part_failure :: [sample_ok_raw])).2 = some 45062 :=
  ⟨by decide,
    chunk_writes_stop_at_first_failure.1 sample_setup 0 [sample_ok_jpeg] sample_ok_raw
      (by decide),
    by decide,
    (chunk_writes_stop_at_first_failure.2 sample_setup 0 [sample_ok_jpeg] [sample_ok_raw]
      sample_part_failure sample_raw_frame (some [255, 216, 9, 255, 217]) 5 45062
      (by decide) rfl rfl rfl rfl (by decide)).1⟩

/-! ## The part header (C9) -/

theorem toDigitsCore_length_eq (fuel n : Nat) (ds : List Char) (h : n < fuel) :
    (Nat.toDigitsCore 10 fuel n ds).length = ds.length + Nat.log 10 n + 1 := by
  induction fuel generalizing n ds with
  | zero => omega
  | succ fuel ih =>
    unfold Nat.toDigitsCore
    by_cases h0 : n / 10 = 0
    · have hlt : n < 10 := by omega
      simp [h0, Nat.log_of_lt hlt]
    · have hge : 10 ≤ n := by omega
      have hlt : n / 10 < fuel := by omega
      simp only [h0, ↓reduceIte]
      rw [ih (n / 10) _ hlt, Nat.log_of_one_lt_of_le (by decide) hge]
      simp only [List.length_cons]
      omega

theorem toDigits_length_eq (n : Nat) : (Nat.toDigits 10 n).length = Nat.log 10 n + 1 := by
  unfold Nat.toDigits
  rw [toDigitsCore_length_eq _ _ _ (Nat.lt_succ_self n)]
  simp

theorem log10_u32_le (n : Nat) (h : n < 2 ^ 32) : Nat.log 10 n + 1 ≤ 10 := by
  rcases Nat.eq_zero_or_pos n with h0 | h0
  · subst h0; simp
  · have := Nat.log_lt_of_lt_pow (b := 10) (x := 10) (Nat.pos_iff_ne_zero.mp h0) (by omega)
    omega

theorem format_u_of_lt (L : Nat) (h : L < 2 ^ 32) : format_u L = Nat.toDigits 10 L := by
  unfold format_u SIZE_BITS
  rw [Nat.mod_eq_of_lt h]

theorem STREAM_PART_length (L : Nat) (h : L < 2 ^ 32) :
    (_STREAM_PART L).length = 46 + (Nat.log 10 L + 1) := by
  have h1 : "Content-Type: image/jpeg\r\nContent-Length: ".toList.length = 42 := by decide
  have h2 : "\r\n\r\n".toList.length = 4 := by decide
  unfold _STREAM_PART
  rw [List.length_append, List.length_append, h1, h2, format_u_of_lt L h, toDigits_length_eq]
  omega

/-- **C9.** For every payload length `L < 2 ^ 32`, the part header formatted
from `"Content-Type: image/jpeg\r\nContent-Length: %u\r\n\r\n"` has
`46 + (number of decimal digits of L)` characters, which is at most 56 and so
below the limit 64 given to `snprintf`; the header is therefore stored in
`part_buf` untruncated, and the length `hlen` handed to the transport is the
number of header bytes actually stored. -/
theorem part_header_fits (L : Nat) (h : L < 2 ^ 32) :
    (_STREAM_PART L).length = 46 + (Nat.log 10 L + 1) ∧
    46 + (Nat.log 10 L + 1) ≤ 56 ∧ 56 < 64 ∧
    (snprintf 64 (_STREAM_PART L)).1 = (_STREAM_PART L).map Char.toNat ∧
    (snprintf 64 (_STREAM_PART L)).2 = ((snprintf 64 (_STREAM_PART L)).1).length := by
  have hlen := STREAM_PART_length L h
  have hlog := log10_u32_le L h
  have htake : (_STREAM_PART L).take (64 - 1) = _STREAM_PART L :=
    List.take_of_length_le (by omega)
  refine ⟨hlen, by omega, by decide, ?_, ?_⟩
  · simp only [snprintf, htake]
  · simp only [snprintf, htake, List.length_map]

/-- Instance of `part_header_fits` at the largest 32-bit length. -/
theorem part_header_fits_witness :
    (4294967295 : Nat) < 2 ^ 32 ∧
    (_STREAM_PART 4294967295).length = 46 + (Nat.log 10 4294967295 + 1) ∧
    (snprintf 64 (_STREAM_PART 4294967295)).2
      = ((snprintf 64 (_STREAM_PART 4294967295)).1).length :=
  ⟨by decide, (part_header_fits 4294967295 (by decide)).1,
    (part_header_fits 4294967295 (by decide)).2.2.2.2⟩

/-! ## JPEG frames are sent as they are (C5) -/

theorem boundary_write_eq (r : esp_err_t) :
    boundary_write r
      = Event.httpd_resp_send_chunk
          (some (cstr "\r\n--123456789000000000000987654321\r\n")) 36 r := by
  have h : _STREAM_BOUNDARY = "\r\n--123456789000000000000987654321\r\n" := by decide
  unfold boundary_write
  rw [h]
  rfl

theorem snprintf_STREAM_PART (L : Nat) (h : L < 2 ^ 32) :
    snprintf 64 (_STREAM_PART L)
      = ((_STREAM_PART L).map Char.toNat, 46 + (Nat.log 10 L + 1)) := by
  have hlen := STREAM_PART_length L h
  have hlog := log10_u32_le L h
  have htake : (_STREAM_PART L).take (64 - 1) = _STREAM_PART L :=
    List.take_of_length_le (by omega)
  simp only [snprintf, htake, hlen]

theorem STREAM_PART_text (L : Nat) (h : L < 2 ^ 32) :
    _STREAM_PART L
      = ("Content-Type: image/jpeg\r\nContent-Length: " ++ toString L ++ "\r\n\r\n").toList := by
  unfold _STREAM_PART
  rw [format_u_of_lt L h]
  simp only [String.toList, String.data_append]
  rfl

theorem part_write_eq (len : Nat) (r : esp_err_t) (h : len < 2 ^ 32) :
    part_write len r
      = Event.httpd_resp_send_chunk
          (some (cstr ("Content-Type: image/jpeg\r\nContent-Length: " ++ toString len
            ++ "\r\n\r\n")))
          (46 + (Nat.log 10 len + 1)) r := by
  unfold part_write
  rw [snprintf_STREAM_PART len h, STREAM_PART_text len h]
  rfl

theorem timing_stage_countP_zero (env : IterEnv) (v : Locals) (p : Event → Bool)
    (h1 : ∀ t, p (Event.esp_timer_get_time t) = false)
    (h2 : ∀ a b c, p (Event.Serial_printf_MJPG a b c) = false) :
    (timing_stage env v).1.countP p = 0 := by
  simp [timing_stage, h1, h2]

/-- **C5.** For a frame that the camera delivers in JPEG format (on any
iteration, after the successful iterations `pre`), `stream_handler` makes no
`frame2jpg` call in that iteration, and its chunk writes are, up to the first
failing one: the boundary marker; the part header whose `Content-Length` is
the decimal text of the frame's own `fb->len` (a `size_t`, hence below
`2 ^ 32`); and the payload chunk given by the frame's own buffer `fb->buf` with
length `fb->len`. -/
theorem jpeg_frame_sent_unconverted (henv : HeaderEnv) (last_frame : Int)
    (pre : List IterEnv) (env : IterEnv) (fb : camera_fb_t)
    (hrun : (stream_handler henv last_frame pre).2 = none)
    (hfb : env.fb_get = some fb) (hfmt : fb.format = pixformat_t.PIXFORMAT_JPEG)
    (hlen : fb.len < 2 ^ 32) :
    ∃ tail : List Event,
      (stream_handler henv last_frame (pre ++ [env])).1
        = (stream_handler henv last_frame pre).1 ++ tail ∧
      tail.countP Event.isEncodeCall = 0 ∧
      tail.filter Event.isSend
        = until_first_failure
            [Event.httpd_resp_send_chunk
               (some (cstr "\r\n--123456789000000000000987654321\r\n")) 36 env.send_boundary,
             Event.httpd_resp_send_chunk
               (some (cstr ("Content-Type: image/jpeg\r\nContent-Length: " ++ toString fb.len
                 ++ "\r\n\r\n")))
               (46 + (Nat.log 10 fb.len + 1)) env.send_part,
             Event.httpd_resp_send_chunk fb.buf fb.len env.send_jpg] := by
  obtain ⟨v, hres, hbuf, htr, -, -⟩ := stream_handler_next henv last_frame pre env hrun
  obtain ⟨h1, -, -⟩ := iteration_jpeg env v fb hres hfb hfmt
  obtain ⟨-, -, -, -, -, -, -, -, ht⟩ := timing_stage_neutral env (iteration env v).2 Held.empty
  have htc := timing_stage_countP_zero env (iteration env v).2 Event.isEncodeCall
    (fun _ => rfl) (fun _ _ _ => rfl)
  refine ⟨_, htr, ?_, ?_⟩
  · rw [List.countP_append, h1, List.countP_append, List.countP_append,
      writes_countP_zero _ _ _ _ _ _ (fun _ _ _ => rfl)]
    split_ifs <;> simp [htc, Event.isEncodeCall]
  · rw [List.filter_append, h1, List.filter_append, List.filter_append, writes_filter_isSend,
      ← boundary_write_eq, ← part_write_eq fb.len env.send_part hlen]
    split_ifs <;> simp [ht, Event.isSend, jpg_write]

/-- Instance of `jpeg_frame_sent_unconverted`: a four-byte JPEG frame on
iteration 2. -/
theorem jpeg_frame_sent_unconverted_witness :
    (stream_handler sample_setup 0 [sample_ok_raw]).2 = none ∧
    sample_ok_jpeg.fb_get = some sample_jpeg_frame ∧
    sample_jpeg_frame.format = pixformat_t.PIXFORMAT_JPEG ∧
    sample_jpeg_frame.len < 2 ^ 32 ∧
    ∃ tail : List Event,
      (stream_handler sample_setup 0 ([sample_ok_raw] ++ [sample_ok_jpeg])).1
        = (stream_handler sample_setup 0 [sample_ok_raw]).1 ++ tail ∧
      tail.countP Event.isEncodeCall = 0 ∧
      tail.filter Event.isSend
        = until_first_failure
            [Event.httpd_resp_send_chunk
               (some (cstr "\r\n--123456789000000000000987654321\r\n")) 36 ESP_OK,
             Event.httpd_resp_send_chunk
               (some (cstr ("Content-Type: image/jpeg\r\nContent-Length: " ++ toString 4
                 ++ "\r\n\r\n")))
               (46 + (Nat.log 10 4 + 1)) ESP_OK,
             Event.httpd_resp_send_chunk (some [255, 216, 255, 217]) 4 ESP_OK] :=
  ⟨by decide, rfl, rfl, by decide,
    jpeg_frame_sent_unconverted sample_setup 0 [sample_ok_raw] sample_ok_jpeg
      sample_jpeg_frame (by decide) rfl rfl (by decide)⟩

/-! ## Frames in other formats are converted once (C6) -/

/-- **C6.** For a frame that is not in JPEG format (on any iteration, after
the successful iterations `pre`), the iteration starts with exactly these
three calls: the acquire, one `frame2jpg` call at quality 80, and directly
after it the return of the raw frame to the camera, whether the conversion
succeeded or not.  Nothing else in the iteration calls the converter or
returns a frame, and every chunk write comes later, so that while chunks are
written the raw frame is no longer owned (only the converter output is).  If
the conversion fails, no chunk is written and the handler returns
`ESP_FAIL`. -/
theorem raw_frame_converted_once (henv : HeaderEnv) (last_frame : Int)
    (pre : List IterEnv) (env : IterEnv) (fb : camera_fb_t)
    (hrun : (stream_handler henv last_frame pre).2 = none)
    (hfb : env.fb_get = some fb) (hfmt : fb.format ≠ pixformat_t.PIXFORMAT_JPEG) :
    ∃ rest : List Event,
      (stream_handler henv last_frame (pre ++ [env])).1
        = (stream_handler henv last_frame pre).1
          ++ [Event.esp_camera_fb_get (some fb), Event.frame2jpg fb 80 env.frame2jpg,
              Event.esp_camera_fb_return fb]
          ++ rest ∧
      rest.countP Event.isEncodeCall = 0 ∧
      rest.countP Event.isFbReturn = 0 ∧
      own_run Held.empty
          [Event.esp_camera_fb_get (some fb), Event.frame2jpg fb 80 env.frame2jpg,
           Event.esp_camera_fb_return fb]
        = some { frame := none, jpg := env.frame2jpg.map Prod.fst } ∧
      (env.frame2jpg = none →
        rest.filter Event.isSend = [] ∧
        ∀ post : List IterEnv,
          (stream_handler henv last_frame (pre ++ env :: post)).2 = some ESP_FAIL) := by
  obtain ⟨v, hres, hbuf, htr, -, hfail⟩ := stream_handler_next henv last_frame pre env hrun
  have htc := timing_stage_countP_zero env (iteration env v).2
  rcases henc : env.frame2jpg with _ | ⟨out, out_len⟩
  · obtain ⟨h1, h2⟩ := iteration_convert_failed env v fb hbuf hfb hfmt henc
    have hne : (iteration env v).2.res ≠ ESP_OK := by rw [h2]; exact ESP_FAIL_ne_OK
    refine ⟨[Event.Serial_println "JPEG compression failed"], ?_, by simp [Event.isEncodeCall],
      by simp [Event.isFbReturn], by simp [own_run, own_step, Held.empty], fun _ => ⟨?_, ?_⟩⟩
    · rw [htr, h1, if_neg hne]
      simp
    · simp [Event.isSend]
    · intro post
      rw [hfail post hne, h2]
  · obtain ⟨h1, -, -⟩ := iteration_converted env v fb out out_len hres hfb hfmt henc
    refine ⟨until_first_failure [boundary_write env.send_boundary,
        part_write out_len env.send_part, jpg_write (some out) out_len env.send_jpg]
        ++ [Event.free out]
        ++ (if (iteration env v).2.res = ESP_OK
            then (timing_stage env (iteration env v).2).1 else []), ?_, ?_, ?_, ?_, ?_⟩
    · rw [htr, h1]
      simp only [List.append_assoc]
    · rw [List.countP_append, List.countP_append,
        writes_countP_zero _ _ _ _ _ _ (fun _ _ _ => rfl)]
      split_ifs <;>
        simp [htc Event.isEncodeCall (fun _ => rfl) (fun _ _ _ => rfl), Event.isEncodeCall]
    · rw [List.countP_append, List.countP_append,
        writes_countP_zero _ _ _ _ _ _ (fun _ _ _ => rfl)]
      split_ifs <;>
        simp [htc Event.isFbReturn (fun _ => rfl) (fun _ _ _ => rfl), Event.isFbReturn]
    · simp [own_run, own_step, Held.empty]
    · intro h
      exact absurd h (by simp)

/-- Instance of `raw_frame_converted_once`: an RGB565 frame on iteration 2
whose conversion fails. -/
theorem raw_frame_converted_once_witness :
    (stream_handler sample_setup 0 [sample_ok_jpeg]).2 = none ∧
    sample_convert_failure.fb_get = some sample_raw_frame ∧
    sample_raw_frame.format ≠ pixformat_t.PIXFORMAT_JPEG ∧
    ∃ rest : List Event,
      (stream_handler sample_setup 0 ([sample_ok_jpeg] ++ [sample_convert_failure])).1
        = (stream_handler sample_setup 0 [sample_ok_jpeg]).1
          ++ [Event.esp_camera_fb_get (some sample_raw_frame),
              Event.frame2jpg sample_raw_frame 80 sample_convert_failure.frame2jpg,
              Event.esp_camera_fb_return sample_raw_frame]
          ++ rest ∧
      rest.countP Event.isEncodeCall = 0 ∧
      rest.countP Event.isFbReturn = 0 ∧
      own_run Held.empty
          [Event.esp_camera_fb_get (some sample_raw_frame),
           Event.frame2jpg sample_raw_frame 80 sample_convert_failure.frame2jpg,
           Event.esp_camera_fb_return sample_raw_frame]
        = some { frame := none, jpg := sample_convert_failure.frame2jpg.map Prod.fst } ∧
      (sample_convert_failure.frame2jpg = none →
        rest.filter Event.isSend = [] ∧
        ∀ post : List IterEnv,
          (stream_handler sample_setup 0
            ([sample_ok_jpeg] ++ sample_convert_failure :: post)).2 = some ESP_FAIL) :=
  ⟨by decide, rfl, by decide,
    raw_frame_converted_once sample_setup 0 [sample_ok_jpeg] sample_convert_failure
      sample_raw_frame (by decide) rfl (by decide)⟩

/-! ## The transmitted stream (C2) -/

theorem transmitted_append (a b : List Event) :
    transmitted (a ++ b) = transmitted a ++ transmitted b := by
  induction a with
  | nil => rfl
  | cons e es ih => simp [transmitted, ih]

theorem transmitted_filter_isSend (tr : List Event) :
    transmitted (tr.filter Event.isSend) = transmitted tr := by
  induction tr with
  | nil => rfl
  | cons e es ih =>
    cases e <;> simp [List.filter, Event.isSend, transmitted, chunk_bytes, ih]

theorem transmitted_part_chunks (p : Bytes) (h : p.length < 2 ^ 32) :
    transmitted (part_chunks p) = part_bytes p := by
  have hb : (cstr "\r\n--123456789000000000000987654321\r\n").take 36
      = cstr "\r\n--123456789000000000000987654321\r\n" := by decide
  have hh : (cstr ("Content-Type: image/jpeg\r\nContent-Length: " ++ toString p.length
      ++ "\r\n\r\n")).take (46 + (Nat.log 10 p.length + 1))
      = cstr ("Content-Type: image/jpeg\r\nContent-Length: " ++ toString p.length
          ++ "\r\n\r\n") := by
    apply List.take_of_length_le
    rw [cstr, List.length_map, ← STREAM_PART_text p.length h, STREAM_PART_length p.length h]
  simp only [part_chunks, transmitted, chunk_bytes, Option.getD_some, hb, hh, part_bytes,
    List.take_length, List.append_nil, List.append_assoc]

theorem transmitted_flatMap_part_chunks (payloads : List Bytes)
    (h : ∀ p ∈ payloads, p.length < 2 ^ 32) :
    transmitted (payloads.flatMap part_chunks) = payloads.flatMap part_bytes := by
  induction payloads with
  | nil => rfl
  | cons p ps ih =>
    rw [List.flatMap_cons, List.flatMap_cons, transmitted_append,
      transmitted_part_chunks p (h p (List.mem_cons_self _ _)),
      ih (fun q hq => h q (List.mem_cons_of_mem _ hq))]

/-- The chunk writes of a run of successful iterations, at the level of the
loop. -/
theorem stream_loop_delivers (envs : List IterEnv) (payloads : List Bytes) (v : Locals)
    (hres : v.res = ESP_OK) (hbuf : v._jpg_buf = none)
    (hall : List.Forall₂ IterEnv.delivers envs payloads)
    (hlen : ∀ p ∈ payloads, p.length < 2 ^ 32) :
    (stream_loop v envs).1.filter Event.isSend = payloads.flatMap part_chunks ∧
    (stream_loop v envs).2 = none := by
  induction hall generalizing v with
  | nil => simp [stream_loop]
  | @cons env p envs ps hd _ ih =>
    obtain ⟨hpay, h1, h2, h3⟩ := hd
    obtain ⟨hs, hr⟩ := iteration_sends env v hres hbuf
    rw [hpay] at hs hr
    have hwr : writes_result env = ESP_OK := by simp [writes_result, h1, h2, h3]
    simp only [hwr] at hr
    obtain ⟨-, tb, tr, -, -, -, -, -, ht⟩ :=
      timing_stage_neutral env (iteration env v).2 Held.empty
    obtain ⟨ih1, ih2⟩ := ih (timing_stage env (iteration env v).2).2 (by rw [tr, hr])
      (by rw [tb, (iteration_balanced env v hbuf).2.1])
      (fun q hq => hlen q (List.mem_cons_of_mem _ hq))
    have hp := hlen p (List.mem_cons_self _ _)
    rw [stream_loop_cons]
    simp only [hr, ne_eq, not_true_eq_false, ↓reduceIte, List.filter_append, hs, ht, ih1, ih2,
      List.append_nil, List.flatMap_cons, and_true]
    congr 1
    rw [boundary_write_eq, part_write_eq p.length _ hp]
    simp [until_first_failure, Event.succeeded, h1, h2, h3, part_chunks, jpg_write]

/-- **C2.** For every `n` and every `n` consecutive successful iterations of
`stream_handler` with JPEG payloads `p_1 .. p_n`, each shorter than `2 ^ 32`
bytes: the chunk writes of the run are, for `i = 1 .. n` in order, the
boundary marker `"\r\n--123456789000000000000987654321\r\n"`, the part header
`"Content-Type: image/jpeg\r\nContent-Length: <decimal length of p_i>\r\n\r\n"`
and `p_i` itself (so `n` boundary chunks, `n` part headers with matching
`Content-Length`, and the payloads in acquisition order), and the bytes passed
to the transport are the concatenation of these parts. -/
theorem transmitted_stream (henv : HeaderEnv) (last_frame : Int) (envs : List IterEnv)
    (payloads : List Bytes) (hset : henv.set_type = ESP_OK)
    (hall : List.Forall₂ IterEnv.delivers envs payloads)
    (hlen : ∀ p ∈ payloads, p.length < 2 ^ 32) :
    (stream_handler henv last_frame envs).1.filter Event.isSend
      = payloads.flatMap part_chunks ∧
    transmitted (stream_handler henv last_frame envs).1 = payloads.flatMap part_bytes ∧
    ((stream_handler henv last_frame envs).1.filter Event.isSend).length
      = 3 * payloads.length := by
  obtain ⟨h1, -⟩ := stream_loop_delivers envs payloads (entry_locals last_frame) rfl rfl
    hall hlen
  have hs : (stream_handler henv last_frame envs).1.filter Event.isSend
      = payloads.flatMap part_chunks := by
    rw [stream_handler_eq_loop _ _ _ hset, List.filter_append, h1]
    simp [setup_events, Event.isSend]
  refine ⟨hs, ?_, ?_⟩
  · rw [← transmitted_filter_isSend, hs, transmitted_flatMap_part_chunks payloads hlen]
  · rw [hs]
    clear hs h1 hall hlen
    induction payloads with
    | nil => rfl
    | cons p ps ih =>
      rw [List.flatMap_cons, List.length_append, ih]
      simp [part_chunks]
      omega

/-- Instance of `transmitted_stream`: five successful iterations with payload
lengths 100, 150, 120, 130 and 140. -/
theorem transmitted_stream_witness :
    sample_setup.set_type = ESP_OK ∧
    List.Forall₂ IterEnv.delivers sample_stream sample_payloads ∧
    sample_payloads.map List.length = [100, 150, 120, 130, 140] ∧
    (stream_handler sample_setup 0 sample_stream).1.filter Event.isSend
      = sample_payloads.flatMap part_chunks ∧
    transmitted (stream_handler sample_setup 0 sample_stream).1
      = sample_payloads.flatMap part_bytes ∧
    ((stream_handler sample_setup 0 sample_stream).1.filter Event.isSend).length = 3 * 5 :=
  have hall : List.Forall₂ IterEnv.delivers sample_stream sample_payloads :=
    List.Forall₂.cons ⟨rfl, rfl, rfl, rfl⟩ (List.Forall₂.cons ⟨rfl, rfl, rfl, rfl⟩
      (List.Forall₂.cons ⟨rfl, rfl, rfl, rfl⟩ (List.Forall₂.cons ⟨rfl, rfl, rfl, rfl⟩
        (List.Forall₂.cons ⟨rfl, rfl, rfl, rfl⟩ List.Forall₂.nil))))
  have hlen : ∀ p ∈ sample_payloads, p.length < 2 ^ 32 := by
    intro p hp
    simp only [sample_payloads, List.mem_cons, List.mem_singleton, List.not_mem_nil,
      or_false] at hp
    rcases hp with rfl | rfl | rfl | rfl | rfl <;> simp
  ⟨rfl, hall, by simp [sample_payloads], transmitted_stream sample_setup 0 sample_stream sample_payloads rfl
    hall hlen⟩

/-! ## Response setup (C7) -/

/-- If `httpd_resp_set_type` fails with code `e`, the handler returns `e`
at once: no frame is acquired and no chunk is written. -/
theorem set_type_failure_aborts (henv : HeaderEnv) (last_frame : Int) (envs : List IterEnv)
    (h : henv.set_type ≠ ESP_OK) :
    stream_handler henv last_frame envs
      = ([Event.httpd_resp_set_type _STREAM_CONTENT_TYPE henv.set_type],
         some henv.set_type) := by
  simp [stream_handler, h]

/-- The results of the two `httpd_resp_set_hdr` calls are recorded in the
trace and have no other effect on the run. -/
theorem set_hdr_results_unused (a b c d : esp_err_t) (last_frame : Int)
    (envs : List IterEnv) :
    (stream_handler { set_type := ESP_OK, set_hdr_origin := a, set_hdr_framerate := b }
        last_frame envs).2
      = (stream_handler { set_type := ESP_OK, set_hdr_origin := c, set_hdr_framerate := d }
        last_frame envs).2 ∧
    (stream_handler { set_type := ESP_OK, set_hdr_origin := a, set_hdr_framerate := b }
        last_frame envs).1.drop 3
      = (stream_handler { set_type := ESP_OK, set_hdr_origin := c, set_hdr_framerate := d }
        last_frame envs).1.drop 3 := by
  simp [stream_handler]

/-- **C7 (the code at the failing input).** With `httpd_resp_set_type`
succeeding and `httpd_resp_set_hdr(req, "Access-Control-Allow-Origin", "*")`
failing with `0xb005`, the handler does not return that code: it goes on to
acquire a frame and writes its three chunks, and is still in its loop
afterwards. -/
theorem set_hdr_failure_not_checked :
    (stream_handler sample_setup_hdr_failure 0 [sample_ok_jpeg]).1.take 4
      = [Event.httpd_resp_set_type _STREAM_CONTENT_TYPE ESP_OK,
         Event.httpd_resp_set_hdr "Access-Control-Allow-Origin" "*" 45061,
         Event.httpd_resp_set_hdr "X-Framerate" "60" ESP_OK,
         Event.esp_camera_fb_get (some sample_jpeg_frame)] ∧
    (stream_handler sample_setup_hdr_failure 0 [sample_ok_jpeg]).1.countP Event.isAcquireCall
      = 1 ∧
    ((stream_handler sample_setup_hdr_failure 0 [sample_ok_jpeg]).1.filter
      Event.isSend).length = 3 ∧
    (stream_handler sample_setup_hdr_failure 0 [sample_ok_jpeg]).2 = none := by
  decide

/-! ## The frame-rate record (C8) -/

theorem stream_loop_some_append (pre rest : List IterEnv) (v : Locals) (e : esp_err_t)
    (h : (stream_loop v pre).2 = some e) :
    stream_loop v (pre ++ rest) = stream_loop v pre := by
  induction pre generalizing v with
  | nil => simp [stream_loop] at h
  | cons env pre ih =>
    rw [stream_loop_cons] at h
    rw [List.cons_append, stream_loop_cons, stream_loop_cons]
    by_cases hr : (iteration env v).2.res = ESP_OK
    · simp only [hr, ne_eq, not_true_eq_false, ↓reduceIte] at h ⊢
      rw [ih _ h]
    · simp [hr]

theorem iteration_last_frame (env : IterEnv) (v : Locals) :
    (iteration env v).2.last_frame = v.last_frame := by
  have h1 : (acquire_stage env v).2.last_frame = v.last_frame := by
    unfold acquire_stage
    rcases env.fb_get with _ | fb
    · rfl
    · by_cases hfmt : fb.format = pixformat_t.PIXFORMAT_JPEG
      · simp [hfmt]
      · rcases env.frame2jpg with _ | ⟨out, out_len⟩ <;> simp [hfmt]
  have h2 : ∀ w, (send_boundary_stage env w).2.last_frame = w.last_frame := by
    intro w; unfold send_boundary_stage; split_ifs <;> rfl
  have h3 : ∀ w, (send_part_stage env w).2.last_frame = w.last_frame := by
    intro w; unfold send_part_stage; split_ifs <;> rfl
  have h4 : ∀ w, (send_jpg_stage env w).2.last_frame = w.last_frame := by
    intro w; unfold send_jpg_stage; split_ifs <;> rfl
  have h5 : ∀ w, (cleanup_stage w).2.last_frame = w.last_frame := by
    intro w; unfold cleanup_stage
    rcases w.fb with _ | fb
    · rcases w._jpg_buf with _ | b <;> rfl
    · rfl
  simp only [iteration, h1, h2, h3, h4, h5]

theorem loop_head_last_frame (pre : List IterEnv) (v : Locals) :
    (loop_head v pre).last_frame = (pre.getLast?.map IterEnv.timer).getD v.last_frame := by
  induction pre generalizing v with
  | nil => rfl
  | cons env rest ih =>
    rw [loop_head, ih]
    cases rest with
    | nil => simp [timing_stage]
    | cons b l =>
      rw [List.getLast?_cons_cons]
      rcases hl : (b :: l).getLast? with _ | x
      · simp at hl
      · simp

theorem iteration_payload_len (env : IterEnv) (v : Locals) (hres : v.res = ESP_OK)
    (buf : Option Bytes) (len : Nat) (hpay : env.payload = some (buf, len)) :
    (iteration env v).2._jpg_buf_len = len := by
  unfold IterEnv.payload at hpay
  rcases hfb : env.fb_get with _ | fb
  · simp [hfb] at hpay
  · by_cases hfmt : fb.format = pixformat_t.PIXFORMAT_JPEG
    · obtain ⟨-, -, h⟩ := iteration_jpeg env v fb hres hfb hfmt
      simp only [hfb, hfmt, ne_eq, not_true_eq_false, ↓reduceIte, Option.some.injEq,
        Prod.mk.injEq] at hpay
      rw [h, hpay.2]
    · rcases henc : env.frame2jpg with _ | ⟨out, out_len⟩
      · simp [hfb, hfmt, henc] at hpay
      · obtain ⟨-, -, h⟩ := iteration_converted env v fb out out_len hres hfb hfmt henc
        simp only [hfb, hfmt, henc, ne_eq, not_false_eq_true, ↓reduceIte, Option.map_some',
          Option.some.injEq, Prod.mk.injEq] at hpay
        rw [h, hpay.2]

theorem stream_handler_split_at (henv : HeaderEnv) (last_frame : Int) (pre : List IterEnv)
    (h : (stream_handler henv last_frame pre).2 = none) (rest : List IterEnv) :
    stream_handler henv last_frame (pre ++ rest)
      = ((stream_handler henv last_frame pre).1
           ++ (stream_loop (loop_head (entry_locals last_frame) pre) rest).1,
         (stream_loop (loop_head (entry_locals last_frame) pre) rest).2) := by
  have hset := set_type_ok_of_running henv last_frame pre h
  rw [stream_handler_eq_loop _ _ _ hset] at h
  simp only at h
  rw [stream_handler_eq_loop _ _ _ hset, stream_handler_eq_loop _ _ _ hset,
    stream_loop_append pre rest _ h]
  simp

/-- **C8 (counterexample).** Two frames streamed 400 microseconds apart: the
elapsed interval `(fr_end - last_frame) / 1000` is zero, yet the second
frame-rate record is printed with the outcome of `1000.0 / 0` as its value.
The division by zero is performed and the sample is not "unknown". -/
theorem fps_zero_interval_divides :
    elapsed_ms 0 [sample_ok_jpeg] sample_fast_jpeg = 0 ∧
    (stream_handler sample_setup 0 [sample_ok_jpeg, sample_fast_jpeg]).1.getLast?
      = some (Event.Serial_printf_MJPG 4 0 (fdiv 1000 0)) ∧
    fdiv 1000 0 = FpsSample.inf ∧
    (stream_handler sample_setup 0 [sample_ok_jpeg, sample_fast_jpeg]).1.any
      Event.dividedByZero = true := by
  decide

/-- **C8 (amended).** The frame-rate computation of `stream_handler` is not
guarded.  Every iteration whose acquire, conversion and three chunk writes
succeeded stays successful (the handler is back at the loop head), and ends
with a timer reading and a record that prints the payload length, the elapsed
interval `ms = (uint32_t)((fr_end - last_frame) / 1000)` and the outcome of the
floating-point division `1000.0 / ms`: the quotient when `ms` is not zero, and
the outcome of the division by zero (infinity) when `ms` is zero. -/
theorem fps_record_unguarded (henv : HeaderEnv) (last_frame : Int) (pre : List IterEnv)
    (env : IterEnv) (buf : Option Bytes) (len : Nat)
    (hrun : (stream_handler henv last_frame pre).2 = none)
    (hpay : env.payload = some (buf, len)) (h1 : env.send_boundary = ESP_OK)
    (h2 : env.send_part = ESP_OK) (h3 : env.send_jpg = ESP_OK) :
    (stream_handler henv last_frame (pre ++ [env])).2 = none ∧
    ∃ front : List Event,
      (stream_handler henv last_frame (pre ++ [env])).1
        = front ++ [Event.esp_timer_get_time env.timer,
            Event.Serial_printf_MJPG (to_u32 len) (elapsed_ms last_frame pre env)
              (if elapsed_ms last_frame pre env = 0 then FpsSample.inf
               else FpsSample.quotient 1000 (elapsed_ms last_frame pre env))] := by
  have hset := set_type_ok_of_running henv last_frame pre hrun
  have hrun2 := hrun
  rw [stream_handler_eq_loop _ _ _ hset] at hrun2
  simp only at hrun2
  obtain ⟨hres, hbuf⟩ := loop_head_inv pre (entry_locals last_frame) hrun2 rfl rfl
  have hsplit := stream_handler_split_at henv last_frame pre hrun [env]
  obtain ⟨-, hr⟩ := iteration_sends env _ hres hbuf
  rw [hpay] at hr
  have hwr : writes_result env = ESP_OK := by simp [writes_result, h1, h2, h3]
  simp only [hwr] at hr
  have hlen := iteration_payload_len env _ hres buf len hpay
  have hlast : (loop_head (entry_locals last_frame) pre).last_frame
      = (pre.getLast?.map IterEnv.timer).getD last_frame :=
    loop_head_last_frame pre (entry_locals last_frame)
  rw [stream_loop_single_ok env _ hr] at hsplit
  refine ⟨by rw [hsplit], (stream_handler henv last_frame pre).1
    ++ (iteration env (loop_head (entry_locals last_frame) pre)).1, ?_⟩
  rw [hsplit]
  simp only [timing_stage, hlen, iteration_last_frame, hlast, elapsed_ms, fdiv,
    List.append_assoc]

/-- Instance of `fps_record_unguarded`: the second of two frames streamed
400 microseconds apart. -/
theorem fps_record_unguarded_witness :
    (stream_handler sample_setup 0 [sample_ok_jpeg]).2 = none ∧
    sample_fast_jpeg.payload = some (some [255, 216, 255, 217], 4) ∧
    (stream_handler sample_setup 0 ([sample_ok_jpeg] ++ [sample_fast_jpeg])).2 = none ∧
    ∃ front : List Event,
      (stream_handler sample_setup 0 ([sample_ok_jpeg] ++ [sample_fast_jpeg])).1
        = front ++ [Event.esp_timer_get_time sample_fast_jpeg.timer,
            Event.Serial_printf_MJPG (to_u32 4) (elapsed_ms 0 [sample_ok_jpeg] sample_fast_jpeg)
              (if elapsed_ms 0 [sample_ok_jpeg] sample_fast_jpeg = 0 then FpsSample.inf
               else FpsSample.quotient 1000
                 (elapsed_ms 0 [sample_ok_jpeg] sample_fast_jpeg))] :=
  ⟨by decide, rfl,
    fps_record_unguarded sample_setup 0 [sample_ok_jpeg] sample_fast_jpeg
      (some [255, 216, 255, 217]) 4 (by decide) rfl rfl rfl rfl⟩

/-! ## Termination of the sampling loops (C10) -/

theorem for_loop_step_zero {α : Type} (stop : Nat) (body : Nat → α → Option α) (fuel i : Nat)
    (acc : α) (hi : i < stop) (hlt : i < 2 ^ 32) :
    for_loop 0 stop body fuel i acc = none := by
  induction fuel generalizing acc with
  | zero => rfl
  | succ fuel ih =>
    have hadd : size_add i 0 = i := by
      simp only [size_add, SIZE_BITS, Nat.add_zero]
      exact Nat.mod_eq_of_lt hlt
    rw [for_loop, if_pos hi, hadd]
    cases body i acc with
    | none => rfl
    | some acc2 => exact ih acc2

theorem for_loop_body_none {α : Type} (step stop : Nat) (body : Nat → α → Option α)
    (fuel i : Nat) (acc : α) (hi : i < stop) (hb : body i acc = none) :
    for_loop step stop body fuel i acc = none := by
  cases fuel with
  | zero => rfl
  | succ fuel => rw [for_loop, if_pos hi, hb]; rfl

theorem for_loop_finishes {α : Type} (step stop : Nat) (body : Nat → α → Option α)
    (hstep : 0 < step) (hwrap : stop + step ≤ 2 ^ 32)
    (hbody : ∀ i acc, (body i acc).isSome = true) (fuel i : Nat) (acc : α)
    (hfuel : stop - i < fuel) :
    (for_loop step stop body fuel i acc).isSome = true := by
  induction fuel generalizing i acc with
  | zero => omega
  | succ fuel ih =>
    rw [for_loop]
    by_cases hi : i < stop
    · rw [if_pos hi]
      obtain ⟨acc2, h2⟩ := Option.isSome_iff_exists.mp (hbody i acc)
      have hadd : size_add i step = i + step := by
        simp only [size_add, SIZE_BITS]
        exact Nat.mod_eq_of_lt (by omega)
      rw [h2, Option.some_bind, hadd]
      exact ih (i + step) acc2 (by omega)
    · rw [if_neg hi]; rfl

theorem for_loop_not_entered {α : Type} (step stop : Nat) (body : Nat → α → Option α)
    (fuel i : Nat) (acc : α) (hi : stop ≤ i) :
    (for_loop step stop body (fuel + 1) i acc).isSome = true := by
  rw [for_loop, if_neg (by omega)]; rfl

theorem size_mul_three (n : Nat) (h : n < 2 ^ 16) : size_mul n 3 = n * 3 := by
  simp only [size_mul, SIZE_BITS]
  exact Nat.mod_eq_of_lt (by omega)

theorem calculate_weighted_sharpness_eq (fuel : Nat) (fb : camera_fb_t) (buf : Bytes)
    (hbuf : fb.buf = some buf) (hlen : fb.len ≠ 0) :
    calculate_weighted_sharpness fuel (some fb)
      = (for_loop (fb.height / 15) (size_mul fb.height 3 / 4)
          (fun y acc =>
            for_loop (fb.width / 20) (size_mul fb.width 3 / 4)
              (fun x acc2 => some (sharpness_sample buf fb.width fb.height x y acc2))
              fuel (fb.width / 4) acc)
          fuel (fb.height / 4) { total_sharpness := 0, total_weight := 0 }).map
        (fun acc =>
          if acc.total_weight > 0 then acc.total_sharpness / acc.total_weight else 0) := by
  simp only [calculate_weighted_sharpness, hbuf, hlen, ↓reduceIte]

/-- The sampling loops never finish when a loop that is entered has step 0. -/
theorem sampling_loops_diverge (fuel : Nat) (fb : camera_fb_t) (buf : Bytes)
    (hbuf : fb.buf = some buf) (hlen : fb.len ≠ 0)
    (hw : fb.width < 2 ^ 16) (hh : fb.height < 2 ^ 16) (h2 : 2 ≤ fb.height)
    (hbad : fb.height < 15 ∨ (2 ≤ fb.width ∧ fb.width < 20)) :
    calculate_weighted_sharpness fuel (some fb) = none := by
  rw [calculate_weighted_sharpness_eq fuel fb buf hbuf hlen, size_mul_three _ hw,
    size_mul_three _ hh]
  have hy : fb.height / 4 < fb.height * 3 / 4 := by omega
  by_cases h15 : fb.height < 15
  · have hs : fb.height / 15 = 0 := by omega
    rw [hs, for_loop_step_zero _ _ _ _ _ hy (by omega)]
    rfl
  · obtain ⟨hw2, hw20⟩ : 2 ≤ fb.width ∧ fb.width < 20 := by
      rcases hbad with h | h
      · exact absurd h h15
      · exact h
    have hx : fb.width / 4 < fb.width * 3 / 4 := by omega
    have hs : fb.width / 20 = 0 := by omega
    rw [for_loop_body_none _ _ _ _ _ _ hy]
    · rfl
    · rw [hs]
      exact for_loop_step_zero _ _ _ _ _ hx (by omega)

/-- The sampling loops finish, within a number of loop tests bounded by the
frame size, when no loop that is entered has step 0. -/
theorem sampling_loops_finish (fb : camera_fb_t) (buf : Bytes)
    (hbuf : fb.buf = some buf) (hlen : fb.len ≠ 0)
    (hw : fb.width < 2 ^ 16) (hh : fb.height < 2 ^ 16)
    (hgood : fb.height ≤ 1 ∨ (15 ≤ fb.height ∧ (fb.width ≤ 1 ∨ 20 ≤ fb.width))) :
    (calculate_weighted_sharpness (fb.width + fb.height + 1) (some fb)).isSome = true := by
  rw [calculate_weighted_sharpness_eq _ fb buf hbuf hlen, size_mul_three _ hw,
    size_mul_three _ hh, Option.isSome_map']
  rcases hgood with h1 | ⟨h15, hwd⟩
  · exact for_loop_not_entered _ _ _ _ _ _ (by omega)
  · apply for_loop_finishes _ _ _ (by omega) (by omega) _ _ _ _ (by omega)
    intro y acc
    rcases hwd with hw1 | hw20
    · exact for_loop_not_entered _ _ _ _ _ _ (by omega)
    · apply for_loop_finishes _ _ _ (by omega) (by omega) _ _ _ _ (by omega)
      intro x acc2
      rfl

/-- **C10.** For every frame with a non-null buffer, `len > 0` and width and
height below `2 ^ 16`, the sampling loops of `calculate_weighted_sharpness`
finish (the function returns, for a large enough bound on the loop tests) if
and only if `height <= 1`, or `height >= 15` and (`width <= 1` or
`width >= 20`); in every other case the function never returns, whatever the
bound. -/
theorem sampling_loops_terminate_iff (fb : camera_fb_t) (buf : Bytes)
    (hbuf : fb.buf = some buf) (hlen : 0 < fb.len)
    (hw : fb.width < 2 ^ 16) (hh : fb.height < 2 ^ 16) :
    ((∃ fuel : Nat, (calculate_weighted_sharpness fuel (some fb)).isSome = true) ↔
      (fb.height ≤ 1 ∨ (15 ≤ fb.height ∧ (fb.width ≤ 1 ∨ 20 ≤ fb.width)))) ∧
    (¬ (fb.height ≤ 1 ∨ (15 ≤ fb.height ∧ (fb.width ≤ 1 ∨ 20 ≤ fb.width))) →
      ∀ fuel : Nat, calculate_weighted_sharpness fuel (some fb) = none) := by
  have hlen0 : fb.len ≠ 0 := by omega
  have hdiv : ¬ (fb.height ≤ 1 ∨ (15 ≤ fb.height ∧ (fb.width ≤ 1 ∨ 20 ≤ fb.width))) →
      ∀ fuel : Nat, calculate_weighted_sharpness fuel (some fb) = none := by
    intro hbad fuel
    exact sampling_loops_diverge fuel fb buf hbuf hlen0 hw hh (by omega) (by omega)
  refine ⟨⟨?_, fun hgood => ⟨_, sampling_loops_finish fb buf hbuf hlen0 hw hh hgood⟩⟩, hdiv⟩
  rintro ⟨fuel, hfuel⟩
  by_contra hbad
  rw [hdiv hbad fuel] at hfuel
  exact absurd hfuel (by simp)

/-- Instance of `sampling_loops_terminate_iff` at a 160 x 120 frame. -/
theorem sampling_loops_terminate_iff_witness :
    sample_gray_frame.buf = some (List.replicate 19200 128) ∧ 0 < sample_gray_frame.len ∧
    sample_gray_frame.width < 2 ^ 16 ∧ sample_gray_frame.height < 2 ^ 16 ∧
    ((∃ fuel : Nat, (calculate_weighted_sharpness fuel (some sample_gray_frame)).isSome = true) ↔
      (sample_gray_frame.height ≤ 1 ∨
        (15 ≤ sample_gray_frame.height ∧
          (sample_gray_frame.width ≤ 1 ∨ 20 ≤ sample_gray_frame.width)))) :=
  ⟨rfl, by decide, by decide, by decide,
    (sampling_loops_terminate_iff sample_gray_frame (List.replicate 19200 128) rfl (by decide)
      (by decide) (by decide)).1⟩

end DVE
